import Mathlib

/-!
Verification development for the PPPoE discovery client in `src/discovery.c`
(rp-pppoe discovery stage).  The C code is shallowly embedded: machine
integers become `Nat`/`Int` (with explicit `% 2 ^ 16` where the C uses
`uint16_t` arithmetic), byte buffers become `List Nat`, the raw-socket
receive loop is driven by an explicit list of delivered frames, and the
process-terminating paths (`exit`) become explicit result constructors.
The two retry loops of `discovery` (with their `goto SEND_PADI` restart)
are modelled by fuel-indexed recursion that records a trace of observable
events: frames sent, state assignments, waits with their timeout values,
timeout diagnostics and restarts.
-/

namespace Pppoe

/-! ## Basic wire-level constants (values from the PPPoE discovery protocol,
RFC 2516, as used by `discovery.c` / `pppoe.h`). -/

def TAG_SERVICE_NAME : Nat := 0x0101

def TAG_AC_NAME : Nat := 0x0102

def TAG_HOST_UNIQ : Nat := 0x0103

def TAG_AC_COOKIE : Nat := 0x0104

def TAG_RELAY_SESSION_ID : Nat := 0x0110

def TAG_SERVICE_NAME_ERROR : Nat := 0x0201

def TAG_AC_SYSTEM_ERROR : Nat := 0x0202

def TAG_GENERIC_ERROR : Nat := 0x0203

def CODE_PADI : Nat := 0x09

def CODE_PADO : Nat := 0x07

def CODE_PADR : Nat := 0x19

def CODE_PADS : Nat := 0x65

/-- `MAX_PPPOE_PAYLOAD`: the 1484-byte TLV payload window. -/
def MAX_PPPOE_PAYLOAD : Nat := 1484

/-- `HDR_SIZE`: 14-byte Ethernet header plus 6-byte PPPoE header. -/
def HDR_SIZE : Nat := 20

/-- `TAG_HDR_SIZE`: type and length fields of a TLV. -/
def TAG_HDR_SIZE : Nat := 4

/-- The broadcast Ethernet address `FF:FF:FF:FF:FF:FF`.  Modelled from the
spec: the `BROADCAST` macro of `pppoe.h` is not under `src/`; the spec says
PADOs whose source MAC is the broadcast address are rejected. -/
def broadcastMAC : List Nat := List.replicate 6 0xFF

/-- The magic service-name sentinel that makes `sendPADI` omit the
Service-Name tag altogether (compared with `strcmp` in the C code). -/
def noServiceNameSentinel : List Nat :=
  "NO-SERVICE-NAME-NON-RFC-COMPLIANT".toList.map Char.toNat

/-! ## Data model -/

/-- A PPPoE TLV tag as seen by the tag visitors: 16-bit type and the value
bytes (`len` in the C visitor equals `payload.length`). -/
structure PPPoETag where
  tagType : Nat
  payload : List Nat
deriving DecidableEq, Repr

/-- A received discovery frame after decoding: Ethernet addresses, PPPoE
code and session id, the declared PPPoE payload `length` field, the number
of bytes received on the wire (`len` in the C code), and the decoded TLV
stream that `parsePacket` walks in order. -/
structure PPPoEPacket where
  ethDest : List Nat
  ethSource : List Nat
  code : Nat
  session : Nat
  length : Nat
  recvLen : Nat
  tags : List PPPoETag
deriving DecidableEq, Repr

/-- `conn->discoveryState`.  `initial` is `STATE_DISCOVERY`. -/
inductive DState where
  | initial
  | sentPADI
  | receivedPADO
  | sentPADR
  | session
deriving DecidableEq, Repr

/-- The `PPPoEConnection` context (struct declared in `pppoe.h`, used by
`discovery.c`).  C strings (`serviceName`, `acName`, `hostUniq`) are
`Option (List Nat)`: `none` is the NULL pointer.  `cookie`/`relayId` are
`Option PPPoETag`: `none` models a zero `type` field (the C tests
`conn->cookie.type`; a captured tag always has a nonzero type).
`maxAttempts` is `MAX_PADI_ATTEMPTS`. -/
structure PPPoEConnection where
  myEth : List Nat
  peerEth : List Nat
  serviceName : Option (List Nat)
  acName : Option (List Nat)
  hostUniq : Option (List Nat)
  cookie : Option PPPoETag
  relayId : Option PPPoETag
  session : Nat
  discoveryState : DState
  numPADOs : Nat
  printACNames : Bool
  skipDiscovery : Bool
  killSession : Bool
  discoveryTimeout : Int
  maxAttempts : Nat
  PADSHadError : Bool
deriving DecidableEq, Repr

/-- `struct PacketCriteria` (without the `conn` back-pointer, which is
threaded explicitly). -/
structure PacketCriteria where
  acNameOK : Bool
  serviceNameOK : Bool
  seenACName : Bool
  seenServiceName : Bool
  gotError : Bool
deriving DecidableEq, Repr

/-! ## `time_left` -/

/-- `struct timeval`. -/
structure Timeval where
  sec : Int
  usec : Int
deriving DecidableEq, Repr

/-- `time_left(tv, expire_at)` from `discovery.c`, with the current time
passed explicitly instead of read via `gettimeofday`.  Returns `none` where
the C function returns 0 ("timed out") and `some tv` where it returns 1
with the computed interval in `*tv`. -/
def time_left (expire_at now : Timeval) : Option Timeval :=
  let s : Int := expire_at.sec - now.sec
  let u : Int := expire_at.usec - now.usec
  if u < 0 then
    let u2 := u + 1000000
    if s ≠ 0 then
      let s2 := s - 1
      if s2 ≤ 0 ∧ u2 ≤ 0 then none else some ⟨s2, u2⟩
    else
      none
  else
    if s ≤ 0 ∧ u ≤ 0 then none else some ⟨s, u⟩

/-! ## Host-Uniq filtering -/

/-- The `parseForHostUniq` visitor folded over the TLV stream: `forMe` is
set if some tag is a Host-Uniq whose length equals `strlen(hostUniq)` and
whose bytes match (`len == strlen(hi->hostUniq) && !memcmp(...)`).  With a
NULL `hostUniq` the visitor returns immediately and `forMe` stays 0. -/
def parseForHostUniqForMe (hostUniq : Option (List Nat)) (tags : List PPPoETag) : Bool :=
  match hostUniq with
  | none => false
  | some h =>
    tags.any fun t =>
      t.tagType == TAG_HOST_UNIQ && (t.payload.length == h.length && t.payload == h)

/-- `packetIsForMe` from `discovery.c`. -/
def packetIsForMe (conn : PPPoEConnection) (packet : PPPoEPacket) : Bool :=
  if packet.ethDest ≠ conn.myEth then false
  else
    match conn.hostUniq with
    | none => true
    | some _ => parseForHostUniqForMe conn.hostUniq packet.tags

/-! ## PADO tag parsing -/

/-- Result of one `parsePADOTags` visitor call: either continue with
updated criteria/connection (`printedErrInfo` records a probe-mode
informational print of an error tag), or the process called
`exit(EXIT_FAILURE)`. -/
inductive PadoTagOut where
  | cont (pc : PacketCriteria) (conn : PPPoEConnection) (printedErrInfo : Bool)
  | exitProcess
deriving DecidableEq, Repr

/-- One case of the `switch` in `parsePADOTags`.  `persist` is the global
`persist` flag.  The `PLUGIN`-only `TAG_PPP_MAX_PAYLOAD` case is omitted
(the standalone build is modelled). -/
def parsePADOTagStep (persist : Bool) (t : PPPoETag) (pc : PacketCriteria)
    (conn : PPPoEConnection) : PadoTagOut :=
  if t.tagType == TAG_AC_NAME then
    let pc1 := { pc with seenACName := true }
    let pc2 :=
      match conn.acName with
      | some an =>
        if t.payload.length == an.length && t.payload == an then
          { pc1 with acNameOK := true }
        else pc1
      | none => pc1
    .cont pc2 conn false
  else if t.tagType == TAG_SERVICE_NAME then
    let pc1 := { pc with seenServiceName := true }
    let pc2 :=
      match conn.serviceName with
      | some sn =>
        if t.payload.length == sn.length && t.payload == sn then
          { pc1 with serviceNameOK := true }
        else pc1
      | none => pc1
    .cont pc2 conn false
  else if t.tagType == TAG_AC_COOKIE then
    .cont pc { conn with cookie := some ⟨TAG_AC_COOKIE, t.payload⟩ } false
  else if t.tagType == TAG_RELAY_SESSION_ID then
    .cont pc { conn with relayId := some ⟨TAG_RELAY_SESSION_ID, t.payload⟩ } false
  else if t.tagType == TAG_SERVICE_NAME_ERROR || t.tagType == TAG_AC_SYSTEM_ERROR
      || t.tagType == TAG_GENERIC_ERROR then
    if conn.printACNames then .cont pc conn true
    else if !persist then .exitProcess
    else .cont { pc with gotError := true } conn false
  else
    .cont pc conn false

/-- `parsePacket(packet, parsePADOTags, &pc)`: fold the visitor over the
TLV stream.  `nInfo` counts probe-mode informational prints of error tags;
`none` means the process exited. -/
def parsePADOTags (persist : Bool) :
    List PPPoETag → PacketCriteria → PPPoEConnection → Nat →
    Option (PacketCriteria × PPPoEConnection × Nat)
  | [], pc, conn, k => some (pc, conn, k)
  | t :: ts, pc, conn, k =>
    match parsePADOTagStep persist t pc conn with
    | .exitProcess => none
    | .cont pc2 c2 printed =>
      parsePADOTags persist ts pc2 c2 (if printed then k + 1 else k)

/-! ## PADS tag parsing -/

/-- One case of the `switch` in `parsePADSTags` (standalone build; the
`TAG_SERVICE_NAME` case only logs). -/
def parsePADSTagStep (t : PPPoETag) (conn : PPPoEConnection) : PPPoEConnection :=
  if t.tagType == TAG_GENERIC_ERROR || t.tagType == TAG_AC_SYSTEM_ERROR
      || t.tagType == TAG_SERVICE_NAME_ERROR then
    { conn with PADSHadError := true }
  else if t.tagType == TAG_RELAY_SESSION_ID then
    { conn with relayId := some ⟨TAG_RELAY_SESSION_ID, t.payload⟩ }
  else conn

/-- `parsePacket(packet, parsePADSTags, conn)`. -/
def parsePADSTags : List PPPoETag → PPPoEConnection → PPPoEConnection
  | [], conn => conn
  | t :: ts, conn => parsePADSTags ts (parsePADSTagStep t conn)

/-! ## The receive loops (`waitForPADO`, `waitForPADS`)

The `select`/`gettimeofday` deadline machinery is abstracted by the list of
frames delivered before the deadline: an empty list (or running off its
end) is the timeout return.  Each list element is processed exactly as one
iteration of the C receive loop body. -/

/-- Outcome of one `waitForPADO` loop iteration on a received frame:
`drop` is every `continue` path (connection possibly mutated by the tag
visitor), `brk` is the accepting `break` (state set to `RECEIVED_PADO`),
`exited` is `exit(EXIT_FAILURE)` from inside `parsePADOTags`.  The `Nat`
carries probe-mode informational error prints. -/
inductive PadoStepOut where
  | drop (conn : PPPoEConnection) (nInfo : Nat)
  | brk (conn : PPPoEConnection) (nInfo : Nat)
  | exited (nInfo : Nat)
deriving DecidableEq, Repr

/-- One iteration of the `waitForPADO` receive loop body on packet `p`:
bogus-length check, `packetIsForMe`, PADO code check, broadcast-source
check, criteria initialisation, tag parse, error/AC-Name/Service-Name
checks, `numPADOs` increment, and acceptance. -/
def waitForPADOStep (persist : Bool) (conn : PPPoEConnection) (p : PPPoEPacket) :
    PadoStepOut :=
  if p.length + HDR_SIZE > p.recvLen then .drop conn 0
  else if !(packetIsForMe conn p) then .drop conn 0
  else if p.code == CODE_PADO then
    if p.ethSource == broadcastMAC then .drop conn 0
    else
      let pc : PacketCriteria :=
        { gotError := false, seenACName := false, seenServiceName := false,
          acNameOK := conn.acName.isNone, serviceNameOK := conn.serviceName.isNone }
      match parsePADOTags persist p.tags pc conn 0 with
      | none => .exited 0
      | some (pc2, c2, k) =>
        if pc2.gotError then .drop c2 k
        else if !pc2.seenACName then .drop c2 k
        else if !pc2.seenServiceName then .drop c2 k
        else
          let c3 := { c2 with numPADOs := c2.numPADOs + 1 }
          if pc2.acNameOK && pc2.serviceNameOK then
            let c4 := { c3 with peerEth := p.ethSource }
            if c4.printACNames then .drop c4 k
            else .brk { c4 with discoveryState := .receivedPADO } k
          else .drop c3 k
  else .drop conn 0

/-- Overall outcome of `waitForPADO`: timeout (deadline expired), a PADO
accepted (the loop `break` with the accepting packet), or process exit. -/
inductive PadoWaitOut where
  | timeout (conn : PPPoEConnection) (nInfo : Nat)
  | accepted (conn : PPPoEConnection) (p : PPPoEPacket) (nInfo : Nat)
  | exited (nInfo : Nat)
deriving DecidableEq, Repr

/-- `waitForPADO(conn, timeout)` driven by the list of frames delivered
before the deadline. -/
def waitForPADO (persist : Bool) (conn : PPPoEConnection) (pkts : List PPPoEPacket)
    (nInfo : Nat) : PadoWaitOut :=
  match pkts with
  | [] => .timeout conn nInfo
  | p :: rest =>
    match waitForPADOStep persist conn p with
    | .drop c k => waitForPADO persist c rest (nInfo + k)
    | .brk c k => .accepted c p (nInfo + k)
    | .exited k => .exited (nInfo + k)

/-- Outcome of one `waitForPADS` loop iteration (there is no process-exit
path in `parsePADSTags`). -/
inductive PadsStepOut where
  | drop (conn : PPPoEConnection)
  | brk (conn : PPPoEConnection)
deriving DecidableEq, Repr

/-- One iteration of the `waitForPADS` receive loop body on packet `p`:
bogus-length check, source-is-the-AC check, `packetIsForMe`, PADS code
check, `PADSHadError` reset, tag parse, and acceptance. -/
def waitForPADSStep (conn : PPPoEConnection) (p : PPPoEPacket) : PadsStepOut :=
  if p.length + HDR_SIZE > p.recvLen then .drop conn
  else if !(p.ethSource == conn.peerEth) then .drop conn
  else if !(packetIsForMe conn p) then .drop conn
  else if p.code == CODE_PADS then
    let c := parsePADSTags p.tags { conn with PADSHadError := false }
    if !c.PADSHadError then .brk { c with discoveryState := .session }
    else .drop c
  else .drop conn

/-- Overall outcome of `waitForPADS`.  On acceptance the code after the
loop stores `packet.session` into the connection and logs an RFC-2516
violation when the session id is 0 or 0xFFFF; `violationLogged` records
whether that diagnostic was emitted. -/
inductive PadsWaitOut where
  | timeout (conn : PPPoEConnection)
  | accepted (conn : PPPoEConnection) (p : PPPoEPacket) (violationLogged : Bool)
deriving DecidableEq, Repr

/-- `waitForPADS(conn, timeout)` driven by the list of frames delivered
before the deadline. -/
def waitForPADS (conn : PPPoEConnection) (pkts : List PPPoEPacket) : PadsWaitOut :=
  match pkts with
  | [] => .timeout conn
  | p :: rest =>
    match waitForPADSStep conn p with
    | .drop c => waitForPADS c rest
    | .brk c =>
      .accepted { c with session := p.session } p
        (p.session == 0 || p.session == 0xFFFF)

/-! ## Frame encoding (`sendPADI`, `sendPADR`)

The encoders build the TLV payload through a cursor/`plen` pair exactly as
the C code does: `cursorOff` is `cursor - packet.payload`, `plen` is the
`uint16_t` accumulator (hence the `% 2 ^ 16`), and each append is guarded
by `CHECK_ROOM`.  A failed `CHECK_ROOM` aborts the encode (`none`): the
frame is not sent. -/

/-- 16-bit big-endian encoding of a value (network byte order). -/
def u16be (n : Nat) : List Nat := [n / 256 % 256, n % 256]

/-- Wire bytes of one TLV: big-endian type, big-endian length, value. -/
def encodeTag (t : PPPoETag) : List Nat :=
  u16be t.tagType ++ u16be t.payload.length ++ t.payload

/-- Encoder state: `cursorOff = cursor - packet.payload`, the `uint16_t`
`plen` accumulator, and the tags appended so far in order. -/
structure BuildState where
  cursorOff : Nat
  plen : Nat
  tags : List PPPoETag
deriving DecidableEq, Repr

/-- Append one tag: `CHECK_ROOM(cursor, packet.payload, len + TAG_HDR_SIZE)`
followed by the `memcpy` and the cursor/`plen` advance. -/
def appendTag (st : BuildState) (t : PPPoETag) : Option BuildState :=
  if st.cursorOff + (t.payload.length + TAG_HDR_SIZE) > MAX_PPPOE_PAYLOAD then none
  else
    some ⟨st.cursorOff + (t.payload.length + TAG_HDR_SIZE),
          (st.plen + (t.payload.length + TAG_HDR_SIZE)) % 2 ^ 16,
          st.tags ++ [t]⟩

/-- A discovery frame as assembled by an encoder: Ethernet header fields,
PPPoE code and session, the `plen` written into the PPPoE length field,
and the TLVs in payload order. -/
structure SentFrame where
  ethDest : List Nat
  ethSource : List Nat
  code : Nat
  session : Nat
  plen : Nat
  tags : List PPPoETag
deriving DecidableEq, Repr

/-- All bytes the encoder laid out: Ethernet header (destination, source,
ethertype 0x8863), PPPoE header (`vertype` 0x11, code, session, length),
then the TLV stream. -/
def frameBytes (f : SentFrame) : List Nat :=
  f.ethDest ++ f.ethSource ++ u16be 0x8863 ++ [0x11, f.code] ++ u16be f.session
    ++ u16be f.plen ++ (f.tags.map encodeTag).flatten

/-- The bytes actually handed to `sendPacket`: the C code sends
`plen + HDR_SIZE` bytes of the packet buffer. -/
def sentFrameBytes (f : SentFrame) : List Nat :=
  (frameBytes f).take (HDR_SIZE + f.plen)

/-- `sendPADI`.  `namelen` is the `uint16_t` cast of `strlen(serviceName)`;
the Service-Name tag is omitted only for the sentinel string; the
Host-Uniq tag is appended when configured.  (The `PLUGIN`-only
PPP-Max-Payload tag is omitted: the standalone build is modelled.) -/
def sendPADI (conn : PPPoEConnection) : Option SentFrame :=
  let namelen : Nat := (match conn.serviceName with
    | some sn => sn.length
    | none => 0) % 2 ^ 16
  let omitServiceName : Bool := conn.serviceName == some noServiceNameSentinel
  let st0 : Option BuildState :=
    if !omitServiceName then
      let plen := (TAG_HDR_SIZE + namelen) % 2 ^ 16
      if 0 + plen > MAX_PPPOE_PAYLOAD then none
      else
        some ⟨namelen + TAG_HDR_SIZE, plen,
              [⟨TAG_SERVICE_NAME, ((conn.serviceName.getD []).take namelen)⟩]⟩
    else some ⟨0, 0, []⟩
  match st0 with
  | none => none
  | some st1 =>
    match (match conn.hostUniq with
           | some hu => appendTag st1 ⟨TAG_HOST_UNIQ, hu⟩
           | none => some st1) with
    | none => none
    | some st2 =>
      some { ethDest := broadcastMAC, ethSource := conn.myEth, code := CODE_PADI,
             session := 0, plen := st2.plen, tags := st2.tags }

/-- `sendPADR`.  The Service-Name tag is always present (possibly empty);
Host-Uniq, the captured AC-Cookie and the captured Relay-Session-Id are
appended verbatim when present.  Destination is `peerEth`. -/
def sendPADR (conn : PPPoEConnection) : Option SentFrame :=
  let namelen : Nat := (match conn.serviceName with
    | some sn => sn.length
    | none => 0) % 2 ^ 16
  let plen := (TAG_HDR_SIZE + namelen) % 2 ^ 16
  if 0 + plen > MAX_PPPOE_PAYLOAD then none
  else
    let st1 : BuildState :=
      ⟨namelen + TAG_HDR_SIZE, plen,
       [⟨TAG_SERVICE_NAME, ((conn.serviceName.getD []).take namelen)⟩]⟩
    match (match conn.hostUniq with
           | some hu => appendTag st1 ⟨TAG_HOST_UNIQ, hu⟩
           | none => some st1) with
    | none => none
    | some st2 =>
      match (match conn.cookie with
             | some ck => appendTag st2 ck
             | none => some st2) with
      | none => none
      | some st3 =>
        match (match conn.relayId with
               | some r => appendTag st3 r
               | none => some st3) with
        | none => none
        | some st4 =>
          some { ethDest := conn.peerEth, ethSource := conn.myEth, code := CODE_PADR,
                 session := 0, plen := st4.plen, tags := st4.tags }

/-! ## The discovery state machine (`discovery`)

`discovery` runs two `do`/`while` loops; the PADR loop can jump back to
the `SEND_PADI` label in persistent mode.  Both loops and the jump are
modelled by fuel-indexed recursion.  Each wait call consumes one batch of
delivered frames from the environment `env : List (List PPPoEPacket)`.
Observable events are recorded in order:
* `sentPADI f` / `sentPADR f`: a frame handed to `sendPacket`;
* `stateSet s`: an assignment to `conn->discoveryState`;
* `padiWait a t` / `padrWait a t`: a call of `waitForPADO` / `waitForPADS`
  with the current attempt-counter value `a` and timeout `t`;
* `padiTimeoutMsg` / `padrTimeoutMsg`: the printed timeout diagnostics;
* `restart`: the `goto SEND_PADI` jump. -/

/-- Observable events of a `discovery` run. -/
inductive DiscEvent where
  | sentPADI (f : SentFrame)
  | sentPADR (f : SentFrame)
  | stateSet (s : DState)
  | padiWait (attempt : Nat) (timeout : Int)
  | padrWait (attempt : Nat) (timeout : Int)
  | padiTimeoutMsg
  | padrTimeoutMsg
  | restart
deriving DecidableEq, Repr

/-- Outcome of the PADI/PADO loop: process exit from inside the parser,
fuel exhaustion, or falling out of the loop (by `break` on exhaustion, by
the probe-mode break, or because the state left `SENT_PADI`). -/
inductive PadiLoopOut where
  | exitedFailure
  | after (conn : PPPoEConnection) (env : List (List PPPoEPacket))
  | outOfFuel (conn : PPPoEConnection) (env : List (List PPPoEPacket))
deriving DecidableEq, Repr

/-- The PADI/PADO loop of `discovery` (`SEND_PADI: padiAttempts = 0;
do { ... } while (state == SENT_PADI)`), entered with counter `attempts`
and the current `timeout`; `T` is `conn->discoveryTimeout` and `maxA` is
`MAX_PADI_ATTEMPTS`.  In persistent mode exhaustion resets the counter and
the timeout and the iteration proceeds; otherwise it breaks out. -/
def padiLoop (persist : Bool) (maxA : Nat) (T : Int) :
    Nat → PPPoEConnection → List (List PPPoEPacket) → Nat → Int →
    PadiLoopOut × List DiscEvent
  | 0, conn, env, _, _ => (.outOfFuel conn env, [])
  | fuel + 1, conn, env, attempts, timeout =>
    let a := attempts + 1
    if a > maxA && !persist then
      (.after conn env, [.padiTimeoutMsg])
    else
      let (a2, timeout2, evts0) :=
        if a > maxA then (0, T, [DiscEvent.padiTimeoutMsg])
        else (a, timeout, ([] : List DiscEvent))
      let (sendEvts, conn1) :=
        match sendPADI conn with
        | some f => ([DiscEvent.sentPADI f], conn)
        | none => ([], conn)
      let conn2 := { conn1 with discoveryState := .sentPADI }
      let evts := evts0 ++ sendEvts ++ [.stateSet .sentPADI, .padiWait a2 timeout2]
      match waitForPADO persist conn2 (env.headD []) 0 with
      | .exited _ => (.exitedFailure, evts)
      | .timeout c _ =>
        let timeout3 := if !c.printACNames then timeout2 * 2 else timeout2
        if c.printACNames && c.numPADOs != 0 then (.after c env.tail, evts)
        else if c.discoveryState == DState.sentPADI then
          let r := padiLoop persist maxA T fuel c env.tail a2 timeout3
          (r.1, evts ++ r.2)
        else (.after c env.tail, evts)
      | .accepted c _ _ =>
        let evts2 := evts ++ [DiscEvent.stateSet .receivedPADO]
        let timeout3 := if !c.printACNames then timeout2 * 2 else timeout2
        if c.printACNames && c.numPADOs != 0 then (.after c env.tail, evts2)
        else if c.discoveryState == DState.sentPADI then
          let r := padiLoop persist maxA T fuel c env.tail a2 timeout3
          (r.1, evts2 ++ r.2)
        else (.after c env.tail, evts2)

/-- Outcome of the PADR/PADS loop: a session established, a plain return
without a session (non-persistent exhaustion), the `goto SEND_PADI`
restart (persistent exhaustion), or fuel exhaustion. -/
inductive PadrLoopOut where
  | sessionDone (conn : PPPoEConnection) (env : List (List PPPoEPacket))
  | returned (conn : PPPoEConnection) (env : List (List PPPoEPacket))
  | restart (conn : PPPoEConnection) (env : List (List PPPoEPacket))
  | outOfFuel (conn : PPPoEConnection) (env : List (List PPPoEPacket))
deriving DecidableEq, Repr

/-- The PADR/PADS loop of `discovery` (`padrAttempts = 0; do { ... } while
(state == SENT_PADR)`).  On exhaustion it prints the PADS timeout
diagnostic and either restarts discovery (persistent) or returns. -/
def padrLoop (persist : Bool) (maxA : Nat) (T : Int) :
    Nat → PPPoEConnection → List (List PPPoEPacket) → Nat → Int →
    PadrLoopOut × List DiscEvent
  | 0, conn, env, _, _ => (.outOfFuel conn env, [])
  | fuel + 1, conn, env, attempts, timeout =>
    let a := attempts + 1
    if a > maxA then
      if persist then (.restart conn env, [.padrTimeoutMsg])
      else (.returned conn env, [.padrTimeoutMsg])
    else
      let (sendEvts, conn1) :=
        match sendPADR conn with
        | some f => ([DiscEvent.sentPADR f], conn)
        | none => ([], conn)
      let conn2 := { conn1 with discoveryState := .sentPADR }
      let evts := sendEvts ++ [DiscEvent.stateSet .sentPADR, .padrWait a timeout]
      match waitForPADS conn2 (env.headD []) with
      | .timeout c =>
        let r := padrLoop persist maxA T fuel c env.tail a (timeout * 2)
        (r.1, evts ++ r.2)
      | .accepted c _ _ =>
        (.sessionDone c env.tail, evts ++ [DiscEvent.stateSet .session])

/-- Result of a `discovery` run: normal return with the final connection,
a process exit (probe-mode termination, kill-session shortcut, or
`exit(EXIT_FAILURE)` from an error tag), or fuel exhaustion. -/
inductive DiscResult where
  | finished (conn : PPPoEConnection)
  | exitedSuccess
  | exitedFailure
  | outOfFuel (conn : PPPoEConnection)
deriving DecidableEq, Repr

/-- The body of `discovery` after the skip-discovery shortcut: the PADI
phase from the `SEND_PADI` label, the probe-mode exit, the PADR phase, and
the `goto SEND_PADI` restart. -/
def discoveryGo (persist : Bool) (maxA : Nat) (T : Int) :
    Nat → PPPoEConnection → List (List PPPoEPacket) →
    DiscResult × List DiscEvent
  | 0, conn, _ => (.outOfFuel conn, [])
  | fuel + 1, conn, env =>
    let p := padiLoop persist maxA T (fuel + 1) conn env 0 T
    match p.1 with
    | .exitedFailure => (.exitedFailure, p.2)
    | .outOfFuel c _ => (.outOfFuel c, p.2)
    | .after c env2 =>
      if c.printACNames then
        (if c.numPADOs != 0 then .exitedSuccess else .exitedFailure, p.2)
      else
        let r := padrLoop persist maxA T (fuel + 1) c env2 0 T
        match r.1 with
        | .sessionDone c2 _ =>
          (.finished { c2 with discoveryState := .session },
           p.2 ++ r.2 ++ [.stateSet .session])
        | .returned c2 _ => (.finished c2, p.2 ++ r.2)
        | .restart c2 env3 =>
          let d := discoveryGo persist maxA T fuel c2 env3
          (d.1, p.2 ++ r.2 ++ [DiscEvent.restart] ++ d.2)
        | .outOfFuel c2 _ => (.outOfFuel c2, p.2 ++ r.2)

/-- `discovery(conn)`: the skip-discovery/kill-session shortcut, then the
two-phase engine.  `persist` is the global flag; `fuel` bounds the number
of loop iterations and restarts. -/
def discovery (persist : Bool) (fuel : Nat) (conn : PPPoEConnection)
    (env : List (List PPPoEPacket)) : DiscResult × List DiscEvent :=
  if conn.skipDiscovery then
    let c := { conn with discoveryState := DState.session }
    if c.killSession then (.exitedSuccess, [.stateSet .session])
    else (.finished c, [.stateSet .session])
  else discoveryGo persist conn.maxAttempts conn.discoveryTimeout fuel conn env

/-! ## Derived observations used by the theorems -/

/-- Payload of the last tag of type `ty` in a TLV stream (the value such a
tag leaves in the connection after a visitor fold), if any. -/
def lastTagPayload (ty : Nat) : List PPPoETag → Option (List Nat)
  | [] => none
  | t :: ts =>
    match lastTagPayload ty ts with
    | some d => some d
    | none => if t.tagType == ty then some t.payload else none

/-- Total TLV bytes of a tag list: `sum (4 + tag.length)`. -/
def tagSum (tags : List PPPoETag) : Nat :=
  (tags.map fun t => TAG_HDR_SIZE + t.payload.length).sum

/-- Is this event a PADR transmission? -/
def isSentPADREvt : DiscEvent → Bool
  | .sentPADR _ => true
  | _ => false

/-- Is this event a PADI transmission? -/
def isSentPADIEvt : DiscEvent → Bool
  | .sentPADI _ => true
  | _ => false

/-- The attempt counter and timeout of the first `padiWait` event in a
trace, if any. -/
def firstPadiWait : List DiscEvent → Option (Nat × Int)
  | [] => none
  | .padiWait a t :: _ => some (a, t)
  | _ :: rest => firstPadiWait rest

/-- Every `restart` event in the trace is followed by a PADI phase that
starts from scratch: the next `padiWait` (if any) is attempt 1 with the
base timeout `T`. -/
def restartsFreshB (T : Int) : List DiscEvent → Bool
  | [] => true
  | .restart :: rest =>
    (firstPadiWait rest == none || firstPadiWait rest == some (1, T))
      && restartsFreshB T rest
  | _ :: rest => restartsFreshB T rest

/-- A `discovery` result is "no silent failure": whenever the engine
returns normally, it does so in state `Session`. -/
def resultNoFailReturn : DiscResult → Bool
  | .finished c => c.discoveryState == DState.session
  | _ => true

/-- Is a tag one of the three error tags (Service-Name-Error,
AC-System-Error, Generic-Error)? -/
def isErrTag (t : PPPoETag) : Bool :=
  t.tagType == TAG_SERVICE_NAME_ERROR || t.tagType == TAG_AC_SYSTEM_ERROR
    || t.tagType == TAG_GENERIC_ERROR

/-! ## Concrete configurations and frames for the executable scenarios -/

/-- A freshly initialised connection: no filters, no Host-Uniq, zeroed
peer MAC, default timeout 5 s and 3 attempts, state `Initial`. -/
def connBase : PPPoEConnection :=
  { myEth := [2, 0, 0, 0, 0, 1], peerEth := [0, 0, 0, 0, 0, 0],
    serviceName := none, acName := none, hostUniq := none,
    cookie := none, relayId := none, session := 0,
    discoveryState := .initial, numPADOs := 0,
    printACNames := false, skipDiscovery := false, killSession := false,
    discoveryTimeout := 5, maxAttempts := 3, PADSHadError := false }

/-- `connBase` in probe mode (`-A`, `print_ac_names`). -/
def connProbe : PPPoEConnection := { connBase with printACNames := true }

/-- `connBase` with the AC-Name filter "gold". -/
def connGold : PPPoEConnection :=
  { connBase with acName := some [103, 111, 108, 100] }

/-- `connBase` with Host-Uniq "abc". -/
def connHU : PPPoEConnection :=
  { connBase with hostUniq := some [97, 98, 99] }

/-- `connBase` after a PADO from `02:00:00:00:00:02` was accepted. -/
def connPeer : PPPoEConnection :=
  { connBase with peerEth := [2, 0, 0, 0, 0, 2], discoveryState := .sentPADR }

/-- `connPeer` with a Relay-Session-Id `[1]` captured in the PADO phase. -/
def connPeerRelay : PPPoEConnection :=
  { connPeer with relayId := some ⟨TAG_RELAY_SESSION_ID, [1]⟩ }

/-- A well-formed PADO from `02:00:00:00:00:02` with AC-Name "i" and an
empty Service-Name. -/
def padoBasic : PPPoEPacket :=
  { ethDest := [2, 0, 0, 0, 0, 1], ethSource := [2, 0, 0, 0, 0, 2],
    code := CODE_PADO, session := 0, length := 9, recvLen := 29,
    tags := [⟨TAG_AC_NAME, [105]⟩, ⟨TAG_SERVICE_NAME, []⟩] }

/-- A PADO with AC-Name "silver" and an AC-Cookie `de ad` (rejected by the
"gold" filter, but its cookie is still captured). -/
def padoSilver : PPPoEPacket :=
  { ethDest := [2, 0, 0, 0, 0, 1], ethSource := [2, 0, 0, 0, 0, 2],
    code := CODE_PADO, session := 0, length := 20, recvLen := 40,
    tags := [⟨TAG_AC_NAME, [115, 105, 108, 118, 101, 114]⟩,
             ⟨TAG_SERVICE_NAME, []⟩, ⟨TAG_AC_COOKIE, [0xde, 0xad]⟩] }

/-- A PADO from `02:00:00:00:00:03` with AC-Name "gold" and no AC-Cookie
tag (accepted by the "gold" filter). -/
def padoGold : PPPoEPacket :=
  { ethDest := [2, 0, 0, 0, 0, 1], ethSource := [2, 0, 0, 0, 0, 3],
    code := CODE_PADO, session := 0, length := 12, recvLen := 32,
    tags := [⟨TAG_AC_NAME, [103, 111, 108, 100]⟩, ⟨TAG_SERVICE_NAME, []⟩] }

/-- A PADO carrying an AC-Cookie `[7]` and a Relay-Session-Id `[8]`. -/
def padoCkRel : PPPoEPacket :=
  { ethDest := [2, 0, 0, 0, 0, 1], ethSource := [2, 0, 0, 0, 0, 2],
    code := CODE_PADO, session := 0, length := 19, recvLen := 39,
    tags := [⟨TAG_AC_NAME, [105]⟩, ⟨TAG_SERVICE_NAME, []⟩,
             ⟨TAG_AC_COOKIE, [7]⟩, ⟨TAG_RELAY_SESSION_ID, [8]⟩] }

/-- A PADO without a Host-Uniq match for `connHU` (Host-Uniq "abd"). -/
def padoWrongHU : PPPoEPacket :=
  { ethDest := [2, 0, 0, 0, 0, 1], ethSource := [2, 0, 0, 0, 0, 2],
    code := CODE_PADO, session := 0, length := 16, recvLen := 36,
    tags := [⟨TAG_AC_NAME, [105]⟩, ⟨TAG_SERVICE_NAME, []⟩,
             ⟨TAG_HOST_UNIQ, [97, 98, 100]⟩] }

/-- A PADS from the accepted peer carrying a Generic-Error "busy". -/
def padsErr : PPPoEPacket :=
  { ethDest := [2, 0, 0, 0, 0, 1], ethSource := [2, 0, 0, 0, 0, 2],
    code := CODE_PADS, session := 0x42, length := 8, recvLen := 28,
    tags := [⟨TAG_GENERIC_ERROR, [98, 117, 115, 121]⟩] }

/-- A PADS from the accepted peer with the RFC-violating session id
`0xFFFF`. -/
def padsFFFF : PPPoEPacket :=
  { ethDest := [2, 0, 0, 0, 0, 1], ethSource := [2, 0, 0, 0, 0, 2],
    code := CODE_PADS, session := 0xFFFF, length := 4, recvLen := 24,
    tags := [⟨TAG_SERVICE_NAME, []⟩] }

/-- A PADS from the accepted peer carrying a Relay-Session-Id `[2]` and
session id `0x42`. -/
def padsRelay : PPPoEPacket :=
  { ethDest := [2, 0, 0, 0, 0, 1], ethSource := [2, 0, 0, 0, 0, 2],
    code := CODE_PADS, session := 0x42, length := 9, recvLen := 29,
    tags := [⟨TAG_SERVICE_NAME, []⟩, ⟨TAG_RELAY_SESSION_ID, [2]⟩] }

/-- The connection after `connPeer` accepts `padsFFFF`. -/
def connFFFF : PPPoEConnection :=
  { connPeer with discoveryState := DState.session, session := 0xFFFF }

/-- The connection after `connPeerRelay` accepts `padsRelay`: the PADS
relay id `[2]` has overwritten the PADO-phase relay id `[1]`. -/
def connRelayDone : PPPoEConnection :=
  { connPeerRelay with
    discoveryState := DState.session, session := 0x42,
    relayId := some ⟨TAG_RELAY_SESSION_ID, [2]⟩ }

/-- The connection after `connBase` accepts `padoCkRel`. -/
def connCkRelAccepted : PPPoEConnection :=
  { connBase with
    peerEth := [2, 0, 0, 0, 0, 2], numPADOs := 1,
    discoveryState := DState.receivedPADO,
    cookie := some ⟨TAG_AC_COOKIE, [7]⟩,
    relayId := some ⟨TAG_RELAY_SESSION_ID, [8]⟩ }

/-- The PADR frame `sendPADR` builds from `connCkRelAccepted`. -/
def padrCkRel : SentFrame :=
  { ethDest := [2, 0, 0, 0, 0, 2], ethSource := [2, 0, 0, 0, 0, 1],
    code := CODE_PADR, session := 0, plen := 14,
    tags := [⟨TAG_SERVICE_NAME, []⟩, ⟨TAG_AC_COOKIE, [7]⟩,
             ⟨TAG_RELAY_SESSION_ID, [8]⟩] }

/-- A PADO carrying an AC-System-Error "busy" besides its AC-Name and
Service-Name tags. -/
def padoErr : PPPoEPacket :=
  { ethDest := [2, 0, 0, 0, 0, 1], ethSource := [2, 0, 0, 0, 0, 2],
    code := CODE_PADO, session := 0, length := 17, recvLen := 37,
    tags := [⟨TAG_AC_NAME, [105]⟩, ⟨TAG_SERVICE_NAME, []⟩,
             ⟨TAG_AC_SYSTEM_ERROR, [98, 117, 115, 121]⟩] }

/-- An all-false packet-criteria record used to instantiate witnesses. -/
def pcBase : PacketCriteria :=
  { acNameOK := true, serviceNameOK := true, seenACName := false,
    seenServiceName := false, gotError := false }

/-- A configuration exercising every optional PADR tag: service name
"svc", Host-Uniq `[9]`, captured cookie `[5, 6]` and relay id `[1]`. -/
def connRich : PPPoEConnection :=
  { connBase with
    peerEth := [2, 0, 0, 0, 0, 2],
    serviceName := some [115, 118, 99],
    hostUniq := some [9],
    cookie := some ⟨TAG_AC_COOKIE, [5, 6]⟩,
    relayId := some ⟨TAG_RELAY_SESSION_ID, [1]⟩ }

/-- The PADI frame `sendPADI` builds from `connRich`. -/
def padiRich : SentFrame :=
  { ethDest := List.replicate 6 0xFF, ethSource := [2, 0, 0, 0, 0, 1],
    code := CODE_PADI, session := 0, plen := 12,
    tags := [⟨TAG_SERVICE_NAME, [115, 118, 99]⟩, ⟨TAG_HOST_UNIQ, [9]⟩] }

/-- The PADR frame `sendPADR` builds from `connRich`. -/
def padrRich : SentFrame :=
  { ethDest := [2, 0, 0, 0, 0, 2], ethSource := [2, 0, 0, 0, 0, 1],
    code := CODE_PADR, session := 0, plen := 23,
    tags := [⟨TAG_SERVICE_NAME, [115, 118, 99]⟩, ⟨TAG_HOST_UNIQ, [9]⟩,
             ⟨TAG_AC_COOKIE, [5, 6]⟩, ⟨TAG_RELAY_SESSION_ID, [1]⟩] }

/-! # Theorems -/

/-! ## Helper lemmas about Host-Uniq filtering -/

theorem parseForHostUniqForMe_eq_false {hu : List Nat} {tags : List PPPoETag}
    (h : ∀ t ∈ tags, ¬(t.tagType = TAG_HOST_UNIQ ∧ t.payload = hu)) :
    parseForHostUniqForMe (some hu) tags = false := by
  simp only [parseForHostUniqForMe, List.any_eq_false]
  intro t ht hcond
  simp only [Bool.and_eq_true, beq_iff_eq] at hcond
  exact h t ht ⟨hcond.1, hcond.2.2⟩

theorem packetIsForMe_eq_false_of_no_hostuniq {conn : PPPoEConnection}
    {p : PPPoEPacket} {hu : List Nat} (hcfg : conn.hostUniq = some hu)
    (h : ∀ t ∈ p.tags, ¬(t.tagType = TAG_HOST_UNIQ ∧ t.payload = hu)) :
    packetIsForMe conn p = false := by
  unfold packetIsForMe
  split
  · rfl
  · rw [hcfg]
    exact parseForHostUniqForMe_eq_false h

/-- Claim C3: with a configured `host_uniq`, a frame whose TLV stream has
no exact-match Host-Uniq tag is classified not-for-me and dropped, and
neither receive loop changes the connection (in particular the discovery
state stays `SentPADI` resp. `SentPADR`) on such a frame. -/
theorem C3_host_uniq_mismatch_never_leaves_state (ps : Bool)
    (conn : PPPoEConnection) (p : PPPoEPacket) (hu : List Nat)
    (hcfg : conn.hostUniq = some hu)
    (h : ∀ t ∈ p.tags, ¬(t.tagType = TAG_HOST_UNIQ ∧ t.payload = hu)) :
    packetIsForMe conn p = false
    ∧ waitForPADOStep ps conn p = .drop conn 0
    ∧ waitForPADSStep conn p = .drop conn := by
  have hfm := packetIsForMe_eq_false_of_no_hostuniq hcfg h
  refine ⟨hfm, ?_, ?_⟩
  · unfold waitForPADOStep
    rw [hfm]
    split <;> rfl
  · unfold waitForPADSStep
    rw [hfm]
    split
    · rfl
    · split <;> rfl

/-- Witness for C3: Host-Uniq "abc" configured, frame carries Host-Uniq
"abd" only. -/
theorem C3_host_uniq_mismatch_never_leaves_state_witness :
    packetIsForMe connHU padoWrongHU = false
    ∧ waitForPADOStep false connHU padoWrongHU = .drop connHU 0
    ∧ waitForPADSStep connHU padoWrongHU = .drop connHU :=
  C3_host_uniq_mismatch_never_leaves_state false connHU padoWrongHU [97, 98, 99]
    (by decide) (by decide)

/-! ## Helper lemmas about the PADS receive loop -/

/-- One `parsePADSTags` visitor call changes the stored relay id exactly
when the tag is a Relay-Session-Id. -/
theorem parsePADSTagStep_relayId (t : PPPoETag) (conn : PPPoEConnection) :
    (parsePADSTagStep t conn).relayId =
      if t.tagType == TAG_RELAY_SESSION_ID then
        some ⟨TAG_RELAY_SESSION_ID, t.payload⟩
      else conn.relayId := by
  by_cases ht : (t.tagType == TAG_RELAY_SESSION_ID) = true
  · have he : (t.tagType == TAG_GENERIC_ERROR || t.tagType == TAG_AC_SYSTEM_ERROR
        || t.tagType == TAG_SERVICE_NAME_ERROR) = false := by
      have h1 : t.tagType = TAG_RELAY_SESSION_ID := by simpa using ht
      simp [h1, TAG_RELAY_SESSION_ID, TAG_GENERIC_ERROR, TAG_AC_SYSTEM_ERROR,
        TAG_SERVICE_NAME_ERROR]
    simp [parsePADSTagStep, he, ht]
  · by_cases he : (t.tagType == TAG_GENERIC_ERROR || t.tagType == TAG_AC_SYSTEM_ERROR
        || t.tagType == TAG_SERVICE_NAME_ERROR) = true
    · simp [parsePADSTagStep, he, ht]
    · simp [parsePADSTagStep, he, ht]

/-- The relay id stored by a `parsePADSTags` fold is the last
Relay-Session-Id of the stream (or the previous one if none). -/
theorem parsePADSTags_relayId (tags : List PPPoETag) :
    ∀ conn : PPPoEConnection,
      (parsePADSTags tags conn).relayId =
        match lastTagPayload TAG_RELAY_SESSION_ID tags with
        | some d => some ⟨TAG_RELAY_SESSION_ID, d⟩
        | none => conn.relayId := by
  induction tags with
  | nil => intro conn; rfl
  | cons t ts ih =>
    intro conn
    rw [parsePADSTags, ih, lastTagPayload]
    cases hl : lastTagPayload TAG_RELAY_SESSION_ID ts with
    | some d => simp only [hl]
    | none =>
      simp only [hl, parsePADSTagStep_relayId]
      by_cases ht : (t.tagType == TAG_RELAY_SESSION_ID) = true
      · simp [ht]
      · simp [ht]

/-- Inversion of an accepting `waitForPADS` step. -/
theorem waitForPADSStep_brk_inv {conn c0 : PPPoEConnection} {p : PPPoEPacket}
    (h : waitForPADSStep conn p = .brk c0) :
    c0.discoveryState = DState.session
    ∧ c0.relayId =
        (match lastTagPayload TAG_RELAY_SESSION_ID p.tags with
         | some d => some ⟨TAG_RELAY_SESSION_ID, d⟩
         | none => conn.relayId) := by
  unfold waitForPADSStep at h
  split at h
  · exact absurd h (by simp)
  · split at h
    · exact absurd h (by simp)
    · split at h
      · exact absurd h (by simp)
      · split at h
        · dsimp only at h
          split at h
          · injection h with h1
            subst h1
            refine ⟨rfl, ?_⟩
            show (parsePADSTags p.tags { conn with PADSHadError := false }).relayId = _
            rw [parsePADSTags_relayId]
          · exact absurd h (by simp)
        · exact absurd h (by simp)

/-- Inversion of an accepting `waitForPADS` run: the accepted packet was
processed by an accepting step, and the code after the loop stored its
session id and logged the RFC violation iff the id is 0 or 0xFFFF. -/
theorem waitForPADS_accepted_inv {conn c : PPPoEConnection}
    {pkts : List PPPoEPacket} {p : PPPoEPacket} {lg : Bool}
    (h : waitForPADS conn pkts = .accepted c p lg) :
    ∃ cmid c0, waitForPADSStep cmid p = .brk c0
      ∧ c = { c0 with session := p.session }
      ∧ lg = (p.session == 0 || p.session == 0xFFFF) := by
  induction pkts generalizing conn with
  | nil => exact absurd h (by simp [waitForPADS])
  | cons q rest ih =>
    rw [waitForPADS] at h
    cases hstep : waitForPADSStep conn q with
    | drop c1 =>
      rw [hstep] at h
      exact ih h
    | brk c1 =>
      rw [hstep] at h
      injection h with h1 h2 h3
      subst h2
      exact ⟨conn, c1, hstep, h1.symm, h3.symm⟩

/-- Claim C9: an accepted PADS with session id 0 or 0xFFFF is logged as an
RFC violation but its session id is stored anyway and the engine reaches
state `Session` with it. -/
theorem C9_rfc_violating_session_id_accepted (conn c : PPPoEConnection)
    (pkts : List PPPoEPacket) (p : PPPoEPacket) (lg : Bool)
    (hacc : waitForPADS conn pkts = .accepted c p lg)
    (hbad : p.session = 0 ∨ p.session = 0xFFFF) :
    c.session = p.session ∧ c.discoveryState = DState.session ∧ lg = true := by
  obtain ⟨cmid, c0, hstep, hc, hlg⟩ := waitForPADS_accepted_inv hacc
  obtain ⟨hst, -⟩ := waitForPADSStep_brk_inv hstep
  subst hc
  refine ⟨rfl, hst, ?_⟩
  subst hlg
  rcases hbad with h1 | h1 <;> simp [h1]

/-- Witness for C9: a PADS with session id 0xFFFF is accepted, stored and
reaches `Session`. -/
theorem C9_rfc_violating_session_id_accepted_witness :
    connFFFF.session = padsFFFF.session
    ∧ connFFFF.discoveryState = DState.session ∧ true = true :=
  C9_rfc_violating_session_id_accepted connPeer connFFFF [padsFFFF] padsFFFF true
    (by decide) (Or.inr (by decide))

/-- Claim C10: if the accepted PADS contains a Relay-Session-Id tag, the
stored `relay_id` is overwritten with the PADS value (the last such tag of
the PADS), so the relay id exposed to the PPP stack after discovery is the
PADS one. -/
theorem C10_pads_relay_id_overwrites_stored (conn c : PPPoEConnection)
    (pkts : List PPPoEPacket) (p : PPPoEPacket) (lg : Bool) (d : List Nat)
    (hacc : waitForPADS conn pkts = .accepted c p lg)
    (hrel : lastTagPayload TAG_RELAY_SESSION_ID p.tags = some d) :
    c.relayId = some ⟨TAG_RELAY_SESSION_ID, d⟩ := by
  obtain ⟨cmid, c0, hstep, hc, -⟩ := waitForPADS_accepted_inv hacc
  obtain ⟨-, hrl⟩ := waitForPADSStep_brk_inv hstep
  subst hc
  show c0.relayId = _
  rw [hrl, hrel]

/-- Witness for C10: the PADO phase captured relay id `[1]` (echoed in the
PADR), the accepted PADS carries `[2]`, and the final stored relay id is
`[2]`. -/
theorem C10_pads_relay_id_overwrites_stored_witness :
    connRelayDone.relayId = some ⟨TAG_RELAY_SESSION_ID, [2]⟩ :=
  C10_pads_relay_id_overwrites_stored connPeerRelay connRelayDone [padsRelay]
    padsRelay false [2] (by decide) (by decide)

/-! ## Helper lemmas about the PADO receive loop and `sendPADR` -/

/-- What one continuing `parsePADOTags` visitor call does to the captured
cookie, the captured relay id and the probe flag. -/
theorem parsePADOTagStep_cont_inv {ps : Bool} {t : PPPoETag}
    {pc pc2 : PacketCriteria} {conn c2 : PPPoEConnection} {b : Bool}
    (h : parsePADOTagStep ps t pc conn = .cont pc2 c2 b) :
    c2.cookie = (if t.tagType == TAG_AC_COOKIE then
        some ⟨TAG_AC_COOKIE, t.payload⟩ else conn.cookie)
    ∧ c2.relayId = (if t.tagType == TAG_RELAY_SESSION_ID then
        some ⟨TAG_RELAY_SESSION_ID, t.payload⟩ else conn.relayId)
    ∧ c2.printACNames = conn.printACNames := by
  unfold parsePADOTagStep at h
  split at h
  · rename_i hb
    injection h with h1 h2 h3
    subst h2
    have hty : t.tagType = TAG_AC_NAME := by simpa using hb
    simp [hty, TAG_AC_NAME, TAG_AC_COOKIE, TAG_RELAY_SESSION_ID]
  · split at h
    · rename_i hb
      injection h with h1 h2 h3
      subst h2
      have hty : t.tagType = TAG_SERVICE_NAME := by simpa using hb
      simp [hty, TAG_SERVICE_NAME, TAG_AC_COOKIE, TAG_RELAY_SESSION_ID]
    · split at h
      · rename_i hb
        injection h with h1 h2 h3
        subst h2
        have hty : t.tagType = TAG_AC_COOKIE := by simpa using hb
        simp [hty, TAG_AC_COOKIE, TAG_RELAY_SESSION_ID]
      · split at h
        · rename_i hb
          injection h with h1 h2 h3
          subst h2
          have hty : t.tagType = TAG_RELAY_SESSION_ID := by simpa using hb
          simp [hty, TAG_AC_COOKIE, TAG_RELAY_SESSION_ID]
        · split at h
          · rename_i hb
            have hcr : (t.tagType == TAG_AC_COOKIE) = false
                ∧ (t.tagType == TAG_RELAY_SESSION_ID) = false := by
              simp only [Bool.or_eq_true, beq_iff_eq] at hb
              rcases hb with (h1 | h1) | h1 <;>
                simp [h1, TAG_AC_COOKIE, TAG_RELAY_SESSION_ID,
                  TAG_SERVICE_NAME_ERROR, TAG_AC_SYSTEM_ERROR, TAG_GENERIC_ERROR]
            split at h
            · injection h with h1 h2 h3
              subst h2
              simp [hcr.1, hcr.2]
            · split at h
              · exact absurd h (by simp)
              · injection h with h1 h2 h3
                subst h2
                simp [hcr.1, hcr.2]
          · rename_i hn hs hc hr he
            injection h with h1 h2 h3
            subst h2
            simp only [Bool.not_eq_true] at hc hr
            simp [hc, hr]

/-- A `parsePADOTags` fold captures the last AC-Cookie and the last
Relay-Session-Id of the stream (keeping the previous captures if absent),
and never changes the probe flag. -/
theorem parsePADOTags_capture {ps : Bool} (tags : List PPPoETag) :
    ∀ (pc : PacketCriteria) (conn : PPPoEConnection) (k : Nat)
      (pc2 : PacketCriteria) (c2 : PPPoEConnection) (k2 : Nat),
      parsePADOTags ps tags pc conn k = some (pc2, c2, k2) →
      c2.cookie = (match lastTagPayload TAG_AC_COOKIE tags with
        | some d => some ⟨TAG_AC_COOKIE, d⟩
        | none => conn.cookie)
      ∧ c2.relayId = (match lastTagPayload TAG_RELAY_SESSION_ID tags with
        | some d => some ⟨TAG_RELAY_SESSION_ID, d⟩
        | none => conn.relayId)
      ∧ c2.printACNames = conn.printACNames := by
  induction tags with
  | nil =>
    intro pc conn k pc2 c2 k2 h
    rw [parsePADOTags] at h
    injection h with h1
    injection h1 with h1 h2
    injection h2 with h2 h3
    subst h2
    exact ⟨rfl, rfl, rfl⟩
  | cons t ts ih =>
    intro pc conn k pc2 c2 k2 h
    rw [parsePADOTags] at h
    cases hstep : parsePADOTagStep ps t pc conn with
    | exitProcess => rw [hstep] at h; exact absurd h (by simp)
    | cont pc1 c1 b =>
      rw [hstep] at h
      obtain ⟨ihc, ihr, ihp⟩ := ih _ _ _ _ _ _ h
      obtain ⟨hc, hr, hp⟩ := parsePADOTagStep_cont_inv hstep
      refine ⟨?_, ?_, by rw [ihp, hp]⟩
      · rw [ihc, lastTagPayload]
        cases hl : lastTagPayload TAG_AC_COOKIE ts with
        | some d => simp only [hl]
        | none =>
          simp only [hl, hc]
          by_cases ht : (t.tagType == TAG_AC_COOKIE) = true
          · simp [ht]
          · simp [ht]
      · rw [ihr, lastTagPayload]
        cases hl : lastTagPayload TAG_RELAY_SESSION_ID ts with
        | some d => simp only [hl]
        | none =>
          simp only [hl, hr]
          by_cases ht : (t.tagType == TAG_RELAY_SESSION_ID) = true
          · simp [ht]
          · simp [ht]

/-- Inversion of an accepting `waitForPADO` step: the accepting break
records the packet's source MAC as the peer, moves to `ReceivedPADO`, and
carries the cookie/relay-id captures of the packet's tag stream. -/
theorem waitForPADOStep_brk_inv {ps : Bool} {conn c : PPPoEConnection}
    {p : PPPoEPacket} {k : Nat}
    (h : waitForPADOStep ps conn p = .brk c k) :
    c.discoveryState = DState.receivedPADO
    ∧ c.peerEth = p.ethSource
    ∧ c.cookie = (match lastTagPayload TAG_AC_COOKIE p.tags with
        | some d => some ⟨TAG_AC_COOKIE, d⟩
        | none => conn.cookie)
    ∧ c.relayId = (match lastTagPayload TAG_RELAY_SESSION_ID p.tags with
        | some d => some ⟨TAG_RELAY_SESSION_ID, d⟩
        | none => conn.relayId)
    ∧ c.printACNames = conn.printACNames := by
  unfold waitForPADOStep at h
  split at h
  · exact absurd h (by simp)
  · split at h
    · exact absurd h (by simp)
    · split at h
      · split at h
        · exact absurd h (by simp)
        · dsimp only at h
          split at h
          · exact absurd h (by simp)
          · rename_i pc2 c2 k1 hpar
            split at h
            · exact absurd h (by simp)
            · split at h
              · exact absurd h (by simp)
              · split at h
                · exact absurd h (by simp)
                · split at h
                  · split at h
                    · exact absurd h (by simp)
                    · injection h with h1 h2
                      subst h2
                      obtain ⟨hc, hr, hp⟩ := parsePADOTags_capture p.tags _ _ _ _ _ _ hpar
                      exact ⟨h1 ▸ rfl, h1 ▸ rfl, h1 ▸ hc, h1 ▸ hr, h1 ▸ hp⟩
                  · exact absurd h (by simp)
      · exact absurd h (by simp)

/-- Inversion of an accepting `waitForPADO` run: the accepted packet is
the one the accepting step processed. -/
theorem waitForPADO_accepted_inv {ps : Bool} {conn c : PPPoEConnection}
    {pkts : List PPPoEPacket} {p : PPPoEPacket} {n m : Nat}
    (h : waitForPADO ps conn pkts n = .accepted c p m) :
    ∃ cmid k, waitForPADOStep ps cmid p = .brk c k := by
  induction pkts generalizing conn n with
  | nil => exact absurd h (by simp [waitForPADO])
  | cons q rest ih =>
    rw [waitForPADO] at h
    cases hstep : waitForPADOStep ps conn q with
    | drop c1 k =>
      rw [hstep] at h
      exact ih h
    | brk c1 k =>
      rw [hstep] at h
      injection h with h1 h2 h3
      subst h2
      exact ⟨conn, k, h1 ▸ hstep⟩
    | exited k =>
      rw [hstep] at h
      exact absurd h (by simp)

/-- `appendTag` appends the tag at the end of the tag list. -/
theorem appendTag_tags {st st2 : BuildState} {t : PPPoETag}
    (h : appendTag st t = some st2) : st2.tags = st.tags ++ [t] := by
  unfold appendTag at h
  split at h
  · exact absurd h (by simp)
  · injection h with h1
    subst h1
    rfl

/-- A successful `sendPADR` encodes the captured AC-Cookie and the
captured Relay-Session-Id tags (as stored, hence verbatim). -/
theorem sendPADR_contains_captures {conn : PPPoEConnection} {f : SentFrame}
    (h : sendPADR conn = some f) :
    (∀ ck, conn.cookie = some ck → ck ∈ f.tags)
    ∧ (∀ r, conn.relayId = some r → r ∈ f.tags) := by
  unfold sendPADR at h
  dsimp only at h
  split at h
  · exact absurd h (by simp)
  · split at h
    · exact absurd h (by simp)
    · rename_i st2 hhu
      split at h
      · exact absurd h (by simp)
      · rename_i st3 hck
        split at h
        · exact absurd h (by simp)
        · rename_i st4 hrl
          injection h with h1
          subst h1
          constructor
          · intro ck hcook
            rw [hcook] at hck
            have h3 : st3.tags = st2.tags ++ [ck] := appendTag_tags hck
            have h4 : ck ∈ st3.tags := by simp [h3]
            show ck ∈ st4.tags
            cases hrid : conn.relayId with
            | none => rw [hrid] at hrl; injection hrl with h5; rw [← h5]; exact h4
            | some r =>
              rw [hrid] at hrl
              have h5 : st4.tags = st3.tags ++ [r] := appendTag_tags hrl
              simp [h5, h4]
          · intro r hrid
            rw [hrid] at hrl
            have h5 : st4.tags = st3.tags ++ [r] := appendTag_tags hrl
            show r ∈ st4.tags
            simp [h5]

/-! ## Helper lemmas about error tags -/

/-- An error tag parsed in probe mode is printed informationally and
changes nothing. -/
theorem parsePADOTagStep_err_probe {ps : Bool} {t : PPPoETag}
    {pc : PacketCriteria} {conn : PPPoEConnection}
    (he : isErrTag t = true) (hp : conn.printACNames = true) :
    parsePADOTagStep ps t pc conn = .cont pc conn true := by
  simp only [isErrTag, Bool.or_eq_true, beq_iff_eq] at he
  rcases he with (h1 | h1) | h1 <;>
    simp [parsePADOTagStep, h1, hp, TAG_AC_NAME, TAG_SERVICE_NAME, TAG_AC_COOKIE,
      TAG_RELAY_SESSION_ID, TAG_SERVICE_NAME_ERROR, TAG_AC_SYSTEM_ERROR,
      TAG_GENERIC_ERROR]

/-- An error tag parsed in normal non-persistent mode exits the process
with failure. -/
theorem parsePADOTagStep_err_exit {t : PPPoETag} {pc : PacketCriteria}
    {conn : PPPoEConnection}
    (he : isErrTag t = true) (hp : conn.printACNames = false) :
    parsePADOTagStep false t pc conn = .exitProcess := by
  simp only [isErrTag, Bool.or_eq_true, beq_iff_eq] at he
  rcases he with (h1 | h1) | h1 <;>
    simp [parsePADOTagStep, h1, hp, TAG_AC_NAME, TAG_SERVICE_NAME, TAG_AC_COOKIE,
      TAG_RELAY_SESSION_ID, TAG_SERVICE_NAME_ERROR, TAG_AC_SYSTEM_ERROR,
      TAG_GENERIC_ERROR]

/-- An error tag parsed in normal persistent mode marks the frame errored
and continues. -/
theorem parsePADOTagStep_err_persist {t : PPPoETag} {pc : PacketCriteria}
    {conn : PPPoEConnection}
    (he : isErrTag t = true) (hp : conn.printACNames = false) :
    parsePADOTagStep true t pc conn = .cont { pc with gotError := true } conn false := by
  simp only [isErrTag, Bool.or_eq_true, beq_iff_eq] at he
  rcases he with (h1 | h1) | h1 <;>
    simp [parsePADOTagStep, h1, hp, TAG_AC_NAME, TAG_SERVICE_NAME, TAG_AC_COOKIE,
      TAG_RELAY_SESSION_ID, TAG_SERVICE_NAME_ERROR, TAG_AC_SYSTEM_ERROR,
      TAG_GENERIC_ERROR]

/-- A non-error tag never exits the process. -/
theorem parsePADOTagStep_nonerr_cont (ps : Bool) (t : PPPoETag)
    (pc : PacketCriteria) (conn : PPPoEConnection)
    (he : isErrTag t = false) :
    ∃ pc2 c2 b, parsePADOTagStep ps t pc conn = .cont pc2 c2 b := by
  unfold parsePADOTagStep
  split
  · exact ⟨_, _, _, rfl⟩
  · split
    · exact ⟨_, _, _, rfl⟩
    · split
      · exact ⟨_, _, _, rfl⟩
      · split
        · exact ⟨_, _, _, rfl⟩
        · split
          · rename_i hb
            rw [show (t.tagType == TAG_SERVICE_NAME_ERROR || t.tagType == TAG_AC_SYSTEM_ERROR
                || t.tagType == TAG_GENERIC_ERROR) = isErrTag t from rfl, he] at hb
            exact absurd hb (by simp)
          · exact ⟨_, _, _, rfl⟩

/-- A continuing visitor call on a non-error tag leaves `gotError`
untouched. -/
theorem parsePADOTagStep_nonerr_gotError {ps : Bool} {t : PPPoETag}
    {pc pc2 : PacketCriteria} {conn c2 : PPPoEConnection} {b : Bool}
    (h : parsePADOTagStep ps t pc conn = .cont pc2 c2 b)
    (he : isErrTag t = false) :
    pc2.gotError = pc.gotError := by
  unfold parsePADOTagStep at h
  split at h
  · injection h with h1 h2 h3
    subst h1
    cases hA : conn.acName with
    | none => simp [hA]
    | some an =>
      simp only [hA]
      split <;> rfl
  · split at h
    · injection h with h1 h2 h3
      subst h1
      cases hS : conn.serviceName with
      | none => simp [hS]
      | some sn =>
        simp only [hS]
        split <;> rfl
    · split at h
      · injection h with h1 h2 h3
        subst h1
        rfl
      · split at h
        · injection h with h1 h2 h3
          subst h1
          rfl
        · split at h
          · rename_i hb
            rw [show (t.tagType == TAG_SERVICE_NAME_ERROR || t.tagType == TAG_AC_SYSTEM_ERROR
                || t.tagType == TAG_GENERIC_ERROR) = isErrTag t from rfl, he] at hb
            exact absurd hb (by simp)
          · injection h with h1 h2 h3
            subst h1
            rfl

/-- Over a whole PADO tag stream, in normal persistent mode, `gotError`
ends up set iff it was set before or some tag is an error tag. -/
theorem parsePADOTags_gotError (tags : List PPPoETag) :
    ∀ (pc : PacketCriteria) (conn : PPPoEConnection) (k : Nat)
      (pc2 : PacketCriteria) (c2 : PPPoEConnection) (k2 : Nat),
      conn.printACNames = false →
      parsePADOTags true tags pc conn k = some (pc2, c2, k2) →
      pc2.gotError = (pc.gotError || tags.any isErrTag) := by
  induction tags with
  | nil =>
    intro pc conn k pc2 c2 k2 hprobe h
    rw [parsePADOTags] at h
    injection h with h1
    injection h1 with h1 h2
    injection h2 with h2 h3
    subst h1
    simp
  | cons t ts ih =>
    intro pc conn k pc2 c2 k2 hprobe h
    rw [parsePADOTags] at h
    cases hstep : parsePADOTagStep true t pc conn with
    | exitProcess =>
      rw [hstep] at h
      exact absurd h (by simp)
    | cont pc1 c1 b =>
      rw [hstep] at h
      have hp1 : c1.printACNames = false := by
        obtain ⟨-, -, hp⟩ := parsePADOTagStep_cont_inv hstep
        rw [hp, hprobe]
      have hrec := ih _ _ _ _ _ _ hp1 h
      by_cases he : isErrTag t = true
      · have h2 := @parsePADOTagStep_err_persist t pc conn he hprobe
        rw [h2] at hstep
        injection hstep with ha hb hc
        rw [hrec, ← ha]
        simp [he]
      · have he2 : isErrTag t = false := by simpa using he
        have h3 := parsePADOTagStep_nonerr_gotError hstep he2
        rw [hrec, h3]
        simp [he2, Bool.or_assoc]

/-- In normal non-persistent mode, parsing a PADO tag stream that
contains an error tag exits the process. -/
theorem parsePADOTags_err_exits (tags : List PPPoETag) :
    ∀ (pc : PacketCriteria) (conn : PPPoEConnection) (k : Nat),
      conn.printACNames = false → tags.any isErrTag = true →
      parsePADOTags false tags pc conn k = none := by
  induction tags with
  | nil =>
    intro pc conn k hprobe hany
    exact absurd hany (by simp)
  | cons t ts ih =>
    intro pc conn k hprobe hany
    by_cases he : isErrTag t = true
    · rw [parsePADOTags, parsePADOTagStep_err_exit he hprobe]
    · have he2 : isErrTag t = false := by simpa using he
      have hts : ts.any isErrTag = true := by
        simp only [List.any_cons, he2, Bool.false_or] at hany
        exact hany
      obtain ⟨pc2, c2, b, hstep⟩ := parsePADOTagStep_nonerr_cont false t pc conn he2
      rw [parsePADOTags, hstep]
      have hp2 : c2.printACNames = false := by
        obtain ⟨-, -, hp⟩ := parsePADOTagStep_cont_inv hstep
        rw [hp, hprobe]
      exact ih _ _ _ hp2 hts

/-- One `parsePADSTags` visitor call: `PADSHadError` accumulates error
tags. -/
theorem parsePADSTagStep_hadError (t : PPPoETag) (conn : PPPoEConnection) :
    (parsePADSTagStep t conn).PADSHadError = (conn.PADSHadError || isErrTag t) := by
  have hiff : (t.tagType == TAG_GENERIC_ERROR || t.tagType == TAG_AC_SYSTEM_ERROR
      || t.tagType == TAG_SERVICE_NAME_ERROR) = isErrTag t := by
    simp only [isErrTag, TAG_GENERIC_ERROR, TAG_AC_SYSTEM_ERROR, TAG_SERVICE_NAME_ERROR]
    cases h1 : t.tagType == 0x0201 <;> cases h2 : t.tagType == 0x0202 <;>
      cases h3 : t.tagType == 0x0203 <;> simp [h1, h2, h3]
  cases he : isErrTag t with
  | true =>
    rw [← hiff] at he
    simp [parsePADSTagStep, he, hiff]
  | false =>
    rw [← hiff] at he
    simp only [parsePADSTagStep, he, Bool.false_eq_true, if_false, hiff, Bool.or_false]
    split <;> rfl

/-- Over a whole PADS tag stream: `PADSHadError` ends up set iff it was
set before or some tag is an error tag. -/
theorem parsePADSTags_hadError (tags : List PPPoETag) :
    ∀ conn : PPPoEConnection,
      (parsePADSTags tags conn).PADSHadError = (conn.PADSHadError || tags.any isErrTag) := by
  induction tags with
  | nil => intro conn; simp [parsePADSTags]
  | cons t ts ih =>
    intro conn
    rw [parsePADSTags, ih, parsePADSTagStep_hadError]
    simp [Bool.or_assoc]

/-- An errored PADO frame is never accepted in normal persistent mode. -/
theorem waitForPADOStep_err_not_brk (conn : PPPoEConnection) (p : PPPoEPacket)
    (hprobe : conn.printACNames = false)
    (hex : ∃ t ∈ p.tags, isErrTag t = true) :
    ∀ c k, waitForPADOStep true conn p ≠ .brk c k := by
  intro c k h
  have hany : p.tags.any isErrTag = true := by
    obtain ⟨t, ht, he⟩ := hex
    exact List.any_eq_true.mpr ⟨t, ht, he⟩
  unfold waitForPADOStep at h
  split at h
  · exact absurd h (by simp)
  · split at h
    · exact absurd h (by simp)
    · split at h
      · split at h
        · exact absurd h (by simp)
        · dsimp only at h
          split at h
          · exact absurd h (by simp)
          · rename_i pc2 c2 k1 hpar
            have hgot := parsePADOTags_gotError p.tags _ _ _ _ _ _ hprobe hpar
            split at h
            · exact absurd h (by simp)
            · rename_i hng
              rw [hgot] at hng
              simp [hany] at hng
      · exact absurd h (by simp)

/-- An errored PADS frame is never accepted. -/
theorem waitForPADSStep_err_not_brk (conn : PPPoEConnection) (p : PPPoEPacket)
    (hex : ∃ t ∈ p.tags, isErrTag t = true) :
    ∀ c, waitForPADSStep conn p ≠ .brk c := by
  intro c h
  have hany : p.tags.any isErrTag = true := by
    obtain ⟨t, ht, he⟩ := hex
    exact List.any_eq_true.mpr ⟨t, ht, he⟩
  unfold waitForPADSStep at h
  split at h
  · exact absurd h (by simp)
  · split at h
    · exact absurd h (by simp)
    · split at h
      · exact absurd h (by simp)
      · split at h
        · dsimp only at h
          split at h
          · rename_i hng
            rw [parsePADSTags_hadError] at hng
            simp [hany] at hng
          · exact absurd h (by simp)
        · exact absurd h (by simp)

/-- In normal, non-persistent mode an errored PADO frame that reaches the
tag parse terminates the process. -/
theorem waitForPADOStep_err_exits (conn : PPPoEConnection) (p : PPPoEPacket)
    (hprobe : conn.printACNames = false)
    (hex : ∃ t ∈ p.tags, isErrTag t = true)
    (hlen : ¬(p.length + HDR_SIZE > p.recvLen))
    (hfm : packetIsForMe conn p = true)
    (hcode : (p.code == CODE_PADO) = true)
    (hbc : (p.ethSource == broadcastMAC) = false) :
    waitForPADOStep false conn p = .exited 0 := by
  have hany : p.tags.any isErrTag = true := by
    obtain ⟨t, ht, he⟩ := hex
    exact List.any_eq_true.mpr ⟨t, ht, he⟩
  have hpar := parsePADOTags_err_exits p.tags
    { gotError := false, seenACName := false, seenServiceName := false,
      acNameOK := conn.acName.isNone, serviceNameOK := conn.serviceName.isNone }
    conn 0 hprobe hany
  simp [waitForPADOStep, hlen, hfm, hcode, hbc, hpar]

/-- Claim C4, amended.  For PADO frames the claim holds: an error tag is
printed informationally in probe mode; in normal mode it terminates the
process with failure when `persist` is clear, and with `persist` set it
marks the frame errored, the frame is dropped and the loop continues (an
errored PADO is never accepted).  For PADS frames, however, the error is
only logged and `PADSHadError` is set — the frame is dropped and the loop
continues regardless of `persist`; the process never exits on a PADS
error tag. -/
theorem C4_amended_error_tag_handling :
    (∀ (ps : Bool) (t : PPPoETag) (pc : PacketCriteria) (conn : PPPoEConnection),
        isErrTag t = true → conn.printACNames = true →
        parsePADOTagStep ps t pc conn = .cont pc conn true)
    ∧ (∀ (t : PPPoETag) (pc : PacketCriteria) (conn : PPPoEConnection),
        isErrTag t = true → conn.printACNames = false →
        parsePADOTagStep false t pc conn = .exitProcess)
    ∧ (∀ (t : PPPoETag) (pc : PacketCriteria) (conn : PPPoEConnection),
        isErrTag t = true → conn.printACNames = false →
        parsePADOTagStep true t pc conn = .cont { pc with gotError := true } conn false)
    ∧ (∀ (conn : PPPoEConnection) (p : PPPoEPacket),
        conn.printACNames = false → (∃ t ∈ p.tags, isErrTag t = true) →
        ∀ c k, waitForPADOStep true conn p ≠ .brk c k)
    ∧ (∀ (conn : PPPoEConnection) (p : PPPoEPacket),
        conn.printACNames = false → (∃ t ∈ p.tags, isErrTag t = true) →
        ¬(p.length + HDR_SIZE > p.recvLen) → packetIsForMe conn p = true →
        (p.code == CODE_PADO) = true → (p.ethSource == broadcastMAC) = false →
        waitForPADOStep false conn p = .exited 0)
    ∧ (∀ (t : PPPoETag) (conn : PPPoEConnection),
        isErrTag t = true → parsePADSTagStep t conn = { conn with PADSHadError := true })
    ∧ (∀ (conn : PPPoEConnection) (p : PPPoEPacket),
        (∃ t ∈ p.tags, isErrTag t = true) →
        ∀ c, waitForPADSStep conn p ≠ .brk c) := by
  refine ⟨?_, ?_, ?_, ?_, ?_, ?_, ?_⟩
  · intro ps t pc conn he hp
    exact parsePADOTagStep_err_probe he hp
  · intro t pc conn he hp
    exact parsePADOTagStep_err_exit he hp
  · intro t pc conn he hp
    exact parsePADOTagStep_err_persist he hp
  · intro conn p hp hex
    exact waitForPADOStep_err_not_brk conn p hp hex
  · intro conn p hp hex hlen hfm hcode hbc
    exact waitForPADOStep_err_exits conn p hp hex hlen hfm hcode hbc
  · intro t conn he
    simp only [isErrTag, Bool.or_eq_true, beq_iff_eq] at he
    rcases he with (h1 | h1) | h1 <;>
      simp [parsePADSTagStep, h1, TAG_SERVICE_NAME_ERROR, TAG_AC_SYSTEM_ERROR,
        TAG_GENERIC_ERROR, TAG_RELAY_SESSION_ID]
  · intro conn p hex
    exact waitForPADSStep_err_not_brk conn p hex

/-- Witness for the amended C4, exercising every conjunct at concrete
inputs: an AC-System-Error PADO in probe mode, in non-persistent and in
persistent normal mode, and a Generic-Error PADS. -/
theorem C4_amended_error_tag_handling_witness :
    parsePADOTagStep false ⟨TAG_AC_SYSTEM_ERROR, [98]⟩ pcBase connProbe
        = .cont pcBase connProbe true
    ∧ parsePADOTagStep false ⟨TAG_AC_SYSTEM_ERROR, [98]⟩ pcBase connBase
        = .exitProcess
    ∧ parsePADOTagStep true ⟨TAG_AC_SYSTEM_ERROR, [98]⟩ pcBase connBase
        = .cont { pcBase with gotError := true } connBase false
    ∧ waitForPADOStep true connBase padoErr ≠ .brk connBase 0
    ∧ waitForPADOStep false connBase padoErr = .exited 0
    ∧ parsePADSTagStep ⟨TAG_GENERIC_ERROR, [98]⟩ connPeer
        = { connPeer with PADSHadError := true }
    ∧ waitForPADSStep connPeer padsErr ≠ .brk connPeer := by
  refine ⟨?_, ?_, ?_, ?_, ?_, ?_, ?_⟩
  · exact C4_amended_error_tag_handling.1 false ⟨TAG_AC_SYSTEM_ERROR, [98]⟩ pcBase
      connProbe (by decide) (by decide)
  · exact C4_amended_error_tag_handling.2.1 ⟨TAG_AC_SYSTEM_ERROR, [98]⟩ pcBase
      connBase (by decide) (by decide)
  · exact C4_amended_error_tag_handling.2.2.1 ⟨TAG_AC_SYSTEM_ERROR, [98]⟩ pcBase
      connBase (by decide) (by decide)
  · exact C4_amended_error_tag_handling.2.2.2.1 connBase padoErr (by decide)
      ⟨⟨TAG_AC_SYSTEM_ERROR, [98, 117, 115, 121]⟩, by decide, by decide⟩ connBase 0
  · exact C4_amended_error_tag_handling.2.2.2.2.1 connBase padoErr (by decide)
      ⟨⟨TAG_AC_SYSTEM_ERROR, [98, 117, 115, 121]⟩, by decide, by decide⟩ (by decide)
      (by decide) (by decide) (by decide)
  · exact C4_amended_error_tag_handling.2.2.2.2.2.1 ⟨TAG_GENERIC_ERROR, [98]⟩
      connPeer (by decide)
  · exact C4_amended_error_tag_handling.2.2.2.2.2.2 connPeer padsErr
      ⟨⟨TAG_GENERIC_ERROR, [98, 117, 115, 121]⟩, by decide, by decide⟩ connPeer

/-! ## Helper lemmas for the backoff and restart proofs -/

/-- One `waitForPADO` loop iteration never changes the probe flag. -/
theorem waitForPADOStep_preserves_probe {ps : Bool} {conn : PPPoEConnection}
    {p : PPPoEPacket} :
    (∀ c k, waitForPADOStep ps conn p = .drop c k → c.printACNames = conn.printACNames)
    ∧ (∀ c k, waitForPADOStep ps conn p = .brk c k → c.printACNames = conn.printACNames) := by
  constructor
  · intro c k h
    unfold waitForPADOStep at h
    split at h
    · injection h with h1 h2
      subst h1
      rfl
    · split at h
      · injection h with h1 h2
        subst h1
        rfl
      · split at h
        · split at h
          · injection h with h1 h2
            subst h1
            rfl
          · dsimp only at h
            split at h
            · exact absurd h (by simp)
            · rename_i pc2 c2 k1 hpar
              obtain ⟨-, -, hp⟩ := parsePADOTags_capture p.tags _ _ _ _ _ _ hpar
              split at h
              · injection h with h1 h2
                subst h1
                exact hp
              · split at h
                · injection h with h1 h2
                  subst h1
                  exact hp
                · split at h
                  · injection h with h1 h2
                    subst h1
                    exact hp
                  · split at h
                    · split at h
                      · injection h with h1 h2
                        subst h1
                        exact hp
                      · exact absurd h (by simp)
                    · injection h with h1 h2
                      subst h1
                      exact hp
        · injection h with h1 h2
          subst h1
          rfl
  · intro c k h
    exact (waitForPADOStep_brk_inv h).2.2.2.2

/-- A whole `waitForPADO` run never changes the probe flag. -/
theorem waitForPADO_preserves_probe {ps : Bool} :
    ∀ (pkts : List PPPoEPacket) (conn : PPPoEConnection) (n : Nat),
      (∀ c m, waitForPADO ps conn pkts n = .timeout c m →
        c.printACNames = conn.printACNames)
      ∧ (∀ c p m, waitForPADO ps conn pkts n = .accepted c p m →
        c.printACNames = conn.printACNames) := by
  intro pkts
  induction pkts with
  | nil =>
    intro conn n
    constructor
    · intro c m h
      rw [waitForPADO] at h
      injection h with h1 h2
      subst h1
      rfl
    · intro c p m h
      exact absurd h (by simp [waitForPADO])
  | cons q rest ih =>
    intro conn n
    constructor
    · intro c m h
      rw [waitForPADO] at h
      cases hstep : waitForPADOStep ps conn q with
      | drop c1 k =>
        rw [hstep] at h
        have h1 := (ih c1 (n + k)).1 c m h
        rw [h1, waitForPADOStep_preserves_probe.1 c1 k hstep]
      | brk c1 k =>
        rw [hstep] at h
        exact absurd h (by simp)
      | exited k =>
        rw [hstep] at h
        exact absurd h (by simp)
    · intro c p m h
      rw [waitForPADO] at h
      cases hstep : waitForPADOStep ps conn q with
      | drop c1 k =>
        rw [hstep] at h
        have h1 := (ih c1 (n + k)).2 c p m h
        rw [h1, waitForPADOStep_preserves_probe.1 c1 k hstep]
      | brk c1 k =>
        rw [hstep] at h
        injection h with h1 h2 h3
        subst h1
        exact waitForPADOStep_preserves_probe.2 _ _ hstep
      | exited k =>
        rw [hstep] at h
        exact absurd h (by simp)

/-- In the PADR/PADS loop, entered with `timeout = T * 2 ^ attempts`,
every wait of attempt `k` uses timeout `T * 2 ^ (k - 1)`. -/
theorem padrLoop_padrWait (persist : Bool) (maxA : Nat) (T : Int) :
    ∀ (fuel : Nat) (conn : PPPoEConnection) (env : List (List PPPoEPacket))
      (attempts : Nat) (timeout : Int),
      timeout = T * 2 ^ attempts →
      ∀ k t, DiscEvent.padrWait k t
          ∈ (padrLoop persist maxA T fuel conn env attempts timeout).2 →
        1 ≤ k ∧ t = T * 2 ^ (k - 1) := by
  intro fuel
  induction fuel with
  | zero =>
    intro conn env attempts timeout ht k t hmem
    simp [padrLoop] at hmem
  | succ fuel ih =>
    intro conn env attempts timeout ht k t hmem
    rw [padrLoop] at hmem
    split at hmem
    · split at hmem <;> simp at hmem
    · cases hsend : sendPADR conn with
      | some f =>
        rw [hsend] at hmem
        dsimp only at hmem
        split at hmem
        · rename_i c hwait
          simp only [List.cons_append, List.nil_append, List.mem_cons] at hmem
          rcases hmem with h1 | h1 | h1 | hmem
          · exact absurd h1 (by simp)
          · exact absurd h1 (by simp)
          · obtain ⟨hk, ht2⟩ := DiscEvent.padrWait.inj h1
            subst hk
            subst ht2
            refine ⟨by omega, ?_⟩
            rw [ht]
            simp
          · exact ih _ _ _ _ (by rw [ht, pow_succ]; ring) k t hmem
        · rename_i c p lg hwait
          simp only [List.cons_append, List.nil_append, List.mem_cons,
            List.mem_singleton] at hmem
          rcases hmem with h1 | h1 | h1 | h1
          · exact absurd h1 (by simp)
          · exact absurd h1 (by simp)
          · obtain ⟨hk, ht2⟩ := DiscEvent.padrWait.inj h1
            subst hk
            subst ht2
            refine ⟨by omega, ?_⟩
            rw [ht]
            simp
          · exact absurd h1 (by simp)
      | none =>
        rw [hsend] at hmem
        dsimp only at hmem
        split at hmem
        · rename_i c hwait
          simp only [List.cons_append, List.nil_append, List.mem_cons] at hmem
          rcases hmem with h1 | h1 | hmem
          · exact absurd h1 (by simp)
          · obtain ⟨hk, ht2⟩ := DiscEvent.padrWait.inj h1
            subst hk
            subst ht2
            refine ⟨by omega, ?_⟩
            rw [ht]
            simp
          · exact ih _ _ _ _ (by rw [ht, pow_succ]; ring) k t hmem
        · rename_i c p lg hwait
          simp only [List.cons_append, List.nil_append, List.mem_cons,
            List.mem_singleton] at hmem
          rcases hmem with h1 | h1 | h1
          · exact absurd h1 (by simp)
          · obtain ⟨hk, ht2⟩ := DiscEvent.padrWait.inj h1
            subst hk
            subst ht2
            refine ⟨by omega, ?_⟩
            rw [ht]
            simp
          · exact absurd h1 (by simp)

/-- In the non-probe, non-persistent PADI/PADO loop, entered with
`timeout = T * 2 ^ attempts`, every wait of attempt `k` uses timeout
`T * 2 ^ (k - 1)`. -/
theorem padiLoop_padiWait_nonpersist (maxA : Nat) (T : Int) :
    ∀ (fuel : Nat) (conn : PPPoEConnection) (env : List (List PPPoEPacket))
      (attempts : Nat) (timeout : Int),
      conn.printACNames = false → timeout = T * 2 ^ attempts →
      ∀ k t, DiscEvent.padiWait k t
          ∈ (padiLoop false maxA T fuel conn env attempts timeout).2 →
        1 ≤ k ∧ t = T * 2 ^ (k - 1) := by
  intro fuel
  induction fuel with
  | zero =>
    intro conn env attempts timeout hprobe ht k t hmem
    simp [padiLoop] at hmem
  | succ fuel ih =>
    intro conn env attempts timeout hprobe ht k t hmem
    rw [padiLoop] at hmem
    split at hmem
    · simp at hmem
    · rename_i hgt
      have hle : ¬(attempts + 1 > maxA) := by simpa using hgt
      rw [if_neg hle] at hmem
      dsimp only at hmem
      cases hsend : sendPADI conn with
      | some f =>
        rw [hsend] at hmem
        dsimp only at hmem
        split at hmem
        · rename_i m hwait
          simp only [List.nil_append, List.cons_append, List.mem_cons,
            List.not_mem_nil, or_false] at hmem
          rcases hmem with h1 | h1 | h1
          · exact absurd h1 (by simp)
          · exact absurd h1 (by simp)
          · obtain ⟨hk, ht2⟩ := DiscEvent.padiWait.inj h1
            subst hk
            subst ht2
            exact ⟨by omega, by rw [ht]; simp⟩
        · rename_i c m hwait
          have hc : c.printACNames = false := by
            rw [(waitForPADO_preserves_probe _ _ _).1 c m hwait, hprobe]
          simp only [hc, Bool.not_false, if_true, Bool.false_and,
            Bool.false_eq_true, if_false] at hmem
          split at hmem
          · simp only [List.nil_append, List.cons_append, List.mem_cons,
              List.mem_append] at hmem
            rcases hmem with h1 | h1 | h1 | hmem
            · exact absurd h1 (by simp)
            · exact absurd h1 (by simp)
            · obtain ⟨hk, ht2⟩ := DiscEvent.padiWait.inj h1
              subst hk
              subst ht2
              exact ⟨by omega, by rw [ht]; simp⟩
            · exact ih _ _ _ _ hc (by rw [ht, pow_succ]; ring) k t hmem
          · simp only [List.nil_append, List.cons_append, List.mem_cons,
              List.not_mem_nil, or_false] at hmem
            rcases hmem with h1 | h1 | h1
            · exact absurd h1 (by simp)
            · exact absurd h1 (by simp)
            · obtain ⟨hk, ht2⟩ := DiscEvent.padiWait.inj h1
              subst hk
              subst ht2
              exact ⟨by omega, by rw [ht]; simp⟩
        · rename_i c p m hwait
          have hc : c.printACNames = false := by
            rw [(waitForPADO_preserves_probe _ _ _).2 c p m hwait, hprobe]
          simp only [hc, Bool.not_false, if_true, Bool.false_and,
            Bool.false_eq_true, if_false] at hmem
          split at hmem
          · simp only [List.nil_append, List.cons_append, List.append_assoc,
              List.mem_cons, List.mem_append, List.not_mem_nil, or_false,
              List.mem_singleton] at hmem
            rcases hmem with h1 | h1 | h1 | h1 | hmem
            · exact absurd h1 (by simp)
            · exact absurd h1 (by simp)
            · obtain ⟨hk, ht2⟩ := DiscEvent.padiWait.inj h1
              subst hk
              subst ht2
              exact ⟨by omega, by rw [ht]; simp⟩
            · exact absurd h1 (by simp)
            · exact ih _ _ _ _ hc (by rw [ht, pow_succ]; ring) k t hmem
          · simp only [List.nil_append, List.cons_append, List.mem_cons,
              List.not_mem_nil, or_false, List.mem_singleton] at hmem
            rcases hmem with h1 | h1 | h1 | h1
            · exact absurd h1 (by simp)
            · exact absurd h1 (by simp)
            · obtain ⟨hk, ht2⟩ := DiscEvent.padiWait.inj h1
              subst hk
              subst ht2
              exact ⟨by omega, by rw [ht]; simp⟩
            · exact absurd h1 (by simp)
      | none =>
        rw [hsend] at hmem
        dsimp only at hmem
        split at hmem
        · rename_i m hwait
          simp only [List.nil_append, List.cons_append, List.mem_cons,
            List.not_mem_nil, or_false] at hmem
          rcases hmem with h1 | h1
          · exact absurd h1 (by simp)
          · obtain ⟨hk, ht2⟩ := DiscEvent.padiWait.inj h1
            subst hk
            subst ht2
            exact ⟨by omega, by rw [ht]; simp⟩
        · rename_i c m hwait
          have hc : c.printACNames = false := by
            rw [(waitForPADO_preserves_probe _ _ _).1 c m hwait, hprobe]
          simp only [hc, Bool.not_false, if_true, Bool.false_and,
            Bool.false_eq_true, if_false] at hmem
          split at hmem
          · simp only [List.nil_append, List.cons_append, List.mem_cons,
              List.mem_append] at hmem
            rcases hmem with h1 | h1 | hmem
            · exact absurd h1 (by simp)
            · obtain ⟨hk, ht2⟩ := DiscEvent.padiWait.inj h1
              subst hk
              subst ht2
              exact ⟨by omega, by rw [ht]; simp⟩
            · exact ih _ _ _ _ hc (by rw [ht, pow_succ]; ring) k t hmem
          · simp only [List.nil_append, List.cons_append, List.mem_cons,
              List.not_mem_nil, or_false] at hmem
            rcases hmem with h1 | h1
            · exact absurd h1 (by simp)
            · obtain ⟨hk, ht2⟩ := DiscEvent.padiWait.inj h1
              subst hk
              subst ht2
              exact ⟨by omega, by rw [ht]; simp⟩
        · rename_i c p m hwait
          have hc : c.printACNames = false := by
            rw [(waitForPADO_preserves_probe _ _ _).2 c p m hwait, hprobe]
          simp only [hc, Bool.not_false, if_true, Bool.false_and,
            Bool.false_eq_true, if_false] at hmem
          split at hmem
          · simp only [List.nil_append, List.cons_append, List.append_assoc,
              List.mem_cons, List.mem_append, List.not_mem_nil, or_false,
              List.mem_singleton] at hmem
            rcases hmem with h1 | h1 | h1 | hmem
            · exact absurd h1 (by simp)
            · obtain ⟨hk, ht2⟩ := DiscEvent.padiWait.inj h1
              subst hk
              subst ht2
              exact ⟨by omega, by rw [ht]; simp⟩
            · exact absurd h1 (by simp)
            · exact ih _ _ _ _ hc (by rw [ht, pow_succ]; ring) k t hmem
          · simp only [List.nil_append, List.cons_append, List.mem_cons,
              List.not_mem_nil, or_false, List.mem_singleton] at hmem
            rcases hmem with h1 | h1 | h1
            · exact absurd h1 (by simp)
            · obtain ⟨hk, ht2⟩ := DiscEvent.padiWait.inj h1
              subst hk
              subst ht2
              exact ⟨by omega, by rw [ht]; simp⟩
            · exact absurd h1 (by simp)

/-- In the probe-mode PADI/PADO loop the timeout is never doubled: every
wait uses the base timeout `T`. -/
theorem padiLoop_padiWait_probe (persist : Bool) (maxA : Nat) (T : Int) :
    ∀ (fuel : Nat) (conn : PPPoEConnection) (env : List (List PPPoEPacket))
      (attempts : Nat),
      conn.printACNames = true →
      ∀ k t, DiscEvent.padiWait k t
          ∈ (padiLoop persist maxA T fuel conn env attempts T).2 →
        t = T := by
  intro fuel
  induction fuel with
  | zero =>
    intro conn env attempts hprobe k t hmem
    simp [padiLoop] at hmem
  | succ fuel ih =>
    intro conn env attempts hprobe k t hmem
    rw [padiLoop] at hmem
    split at hmem
    · simp at hmem
    · by_cases hgt : attempts + 1 > maxA
      · rw [if_pos hgt] at hmem
        dsimp only at hmem
        cases hsend : sendPADI conn with
      | some f =>
        rw [hsend] at hmem
        dsimp only at hmem
        split at hmem
        · rename_i m hwait
          simp at hmem
          exact hmem.2
        · rename_i c m hwait
          have hc : c.printACNames = true := by
            rw [(waitForPADO_preserves_probe _ _ _).1 c m hwait, hprobe]
          simp only [hc, Bool.not_true, Bool.false_eq_true, if_false,
            Bool.true_and] at hmem
          split at hmem
          · simp at hmem
            exact hmem.2
          · split at hmem
            · simp at hmem
              rcases hmem with ⟨hk, ht2⟩ | hmem
              · exact ht2
              · exact ih _ _ _ hc k t hmem
            · simp at hmem
              exact hmem.2
        · rename_i c p m hwait
          have hc : c.printACNames = true := by
            rw [(waitForPADO_preserves_probe _ _ _).2 c p m hwait, hprobe]
          simp only [hc, Bool.not_true, Bool.false_eq_true, if_false,
            Bool.true_and] at hmem
          split at hmem
          · simp at hmem
            exact hmem.2
          · split at hmem
            · simp at hmem
              rcases hmem with ⟨hk, ht2⟩ | hmem
              · exact ht2
              · exact ih _ _ _ hc k t hmem
            · simp at hmem
              exact hmem.2
      | none =>
        rw [hsend] at hmem
        dsimp only at hmem
        split at hmem
        · rename_i m hwait
          simp at hmem
          exact hmem.2
        · rename_i c m hwait
          have hc : c.printACNames = true := by
            rw [(waitForPADO_preserves_probe _ _ _).1 c m hwait, hprobe]
          simp only [hc, Bool.not_true, Bool.false_eq_true, if_false,
            Bool.true_and] at hmem
          split at hmem
          · simp at hmem
            exact hmem.2
          · split at hmem
            · simp at hmem
              rcases hmem with ⟨hk, ht2⟩ | hmem
              · exact ht2
              · exact ih _ _ _ hc k t hmem
            · simp at hmem
              exact hmem.2
        · rename_i c p m hwait
          have hc : c.printACNames = true := by
            rw [(waitForPADO_preserves_probe _ _ _).2 c p m hwait, hprobe]
          simp only [hc, Bool.not_true, Bool.false_eq_true, if_false,
            Bool.true_and] at hmem
          split at hmem
          · simp at hmem
            exact hmem.2
          · split at hmem
            · simp at hmem
              rcases hmem with ⟨hk, ht2⟩ | hmem
              · exact ht2
              · exact ih _ _ _ hc k t hmem
            · simp at hmem
              exact hmem.2
      · rw [if_neg hgt] at hmem
        dsimp only at hmem
        cases hsend : sendPADI conn with
      | some f =>
        rw [hsend] at hmem
        dsimp only at hmem
        split at hmem
        · rename_i m hwait
          simp at hmem
          exact hmem.2
        · rename_i c m hwait
          have hc : c.printACNames = true := by
            rw [(waitForPADO_preserves_probe _ _ _).1 c m hwait, hprobe]
          simp only [hc, Bool.not_true, Bool.false_eq_true, if_false,
            Bool.true_and] at hmem
          split at hmem
          · simp at hmem
            exact hmem.2
          · split at hmem
            · simp at hmem
              rcases hmem with ⟨hk, ht2⟩ | hmem
              · exact ht2
              · exact ih _ _ _ hc k t hmem
            · simp at hmem
              exact hmem.2
        · rename_i c p m hwait
          have hc : c.printACNames = true := by
            rw [(waitForPADO_preserves_probe _ _ _).2 c p m hwait, hprobe]
          simp only [hc, Bool.not_true, Bool.false_eq_true, if_false,
            Bool.true_and] at hmem
          split at hmem
          · simp at hmem
            exact hmem.2
          · split at hmem
            · simp at hmem
              rcases hmem with ⟨hk, ht2⟩ | hmem
              · exact ht2
              · exact ih _ _ _ hc k t hmem
            · simp at hmem
              exact hmem.2
      | none =>
        rw [hsend] at hmem
        dsimp only at hmem
        split at hmem
        · rename_i m hwait
          simp at hmem
          exact hmem.2
        · rename_i c m hwait
          have hc : c.printACNames = true := by
            rw [(waitForPADO_preserves_probe _ _ _).1 c m hwait, hprobe]
          simp only [hc, Bool.not_true, Bool.false_eq_true, if_false,
            Bool.true_and] at hmem
          split at hmem
          · simp at hmem
            exact hmem.2
          · split at hmem
            · simp at hmem
              rcases hmem with ⟨hk, ht2⟩ | hmem
              · exact ht2
              · exact ih _ _ _ hc k t hmem
            · simp at hmem
              exact hmem.2
        · rename_i c p m hwait
          have hc : c.printACNames = true := by
            rw [(waitForPADO_preserves_probe _ _ _).2 c p m hwait, hprobe]
          simp only [hc, Bool.not_true, Bool.false_eq_true, if_false,
            Bool.true_and] at hmem
          split at hmem
          · simp at hmem
            exact hmem.2
          · split at hmem
            · simp at hmem
              rcases hmem with ⟨hk, ht2⟩ | hmem
              · exact ht2
              · exact ih _ _ _ hc k t hmem
            · simp at hmem
              exact hmem.2

/-- The PADI/PADO loop never emits the `restart` event (only the
`goto SEND_PADI` jump in `discovery` does). -/
theorem padiLoop_no_restart (persist : Bool) (maxA : Nat) (T : Int) :
    ∀ (fuel : Nat) (conn : PPPoEConnection) (env : List (List PPPoEPacket))
      (attempts : Nat) (timeout : Int),
      DiscEvent.restart ∉ (padiLoop persist maxA T fuel conn env attempts timeout).2 := by
  intro fuel
  induction fuel with
  | zero =>
    intro conn env attempts timeout
    simp [padiLoop]
  | succ fuel ih =>
    intro conn env attempts timeout
    rw [padiLoop]
    split
    · simp
    · by_cases hgt : attempts + 1 > maxA
      · rw [if_pos hgt]
        dsimp only
        cases hsend : sendPADI conn <;> dsimp only <;> split <;> (try split) <;>
          (try split) <;> simp [ih]
      · rw [if_neg hgt]
        dsimp only
        cases hsend : sendPADI conn <;> dsimp only <;> split <;> (try split) <;>
          (try split) <;> simp [ih]

/-- The PADR/PADS loop never emits the `restart` event. -/
theorem padrLoop_no_restart (persist : Bool) (maxA : Nat) (T : Int) :
    ∀ (fuel : Nat) (conn : PPPoEConnection) (env : List (List PPPoEPacket))
      (attempts : Nat) (timeout : Int),
      DiscEvent.restart ∉ (padrLoop persist maxA T fuel conn env attempts timeout).2 := by
  intro fuel
  induction fuel with
  | zero =>
    intro conn env attempts timeout
    simp [padrLoop]
  | succ fuel ih =>
    intro conn env attempts timeout
    rw [padrLoop]
    split
    · split <;> simp
    · cases hsend : sendPADR conn <;> dsimp only <;> split <;> simp [ih]

/-- `firstPadiWait` over an append. -/
theorem firstPadiWait_append (A B : List DiscEvent) :
    firstPadiWait (A ++ B) =
      match firstPadiWait A with
      | some x => some x
      | none => firstPadiWait B := by
  induction A with
  | nil => simp [firstPadiWait]
  | cons e rest ih => cases e <;> simp [firstPadiWait, ih]

/-- A PADI phase entered from scratch (counter 0, timeout `T`) makes its
first wait as attempt 1 with timeout `T`. -/
theorem padiLoop_firstPadiWait (persist : Bool) (maxA : Nat) (T : Int)
    (fuel : Nat) (conn : PPPoEConnection) (env : List (List PPPoEPacket))
    (hmaxA : 1 ≤ maxA) (hfuel : 1 ≤ fuel) :
    firstPadiWait (padiLoop persist maxA T fuel conn env 0 T).2 = some (1, T) := by
  cases fuel with
  | zero => omega
  | succ fuel =>
    rw [padiLoop]
    split
    · rename_i hcond
      simp only [Bool.and_eq_true, decide_eq_true_eq] at hcond
      omega
    · have hgt : ¬(0 + 1 > maxA) := by omega
      rw [if_neg hgt]
      dsimp only
      cases hsend : sendPADI conn <;> dsimp only <;> split <;> (try split) <;>
        (try split) <;> simp [firstPadiWait, firstPadiWait_append]

/-- `restartsFreshB` over an append with a restart-free prefix. -/
theorem restartsFreshB_append (T : Int) {A B : List DiscEvent}
    (hA : DiscEvent.restart ∉ A) (hB : restartsFreshB T B = true) :
    restartsFreshB T (A ++ B) = true := by
  induction A with
  | nil => simpa
  | cons e rest ih =>
    have hrest : DiscEvent.restart ∉ rest := fun hmem => hA (List.mem_cons_of_mem e hmem)
    cases e with
    | restart => exact absurd (List.mem_cons_self _ _) hA
    | sentPADI f => simpa [restartsFreshB] using ih hrest
    | sentPADR f => simpa [restartsFreshB] using ih hrest
    | stateSet s => simpa [restartsFreshB] using ih hrest
    | padiWait a t => simpa [restartsFreshB] using ih hrest
    | padrWait a t => simpa [restartsFreshB] using ih hrest
    | padiTimeoutMsg => simpa [restartsFreshB] using ih hrest
    | padrTimeoutMsg => simpa [restartsFreshB] using ih hrest

/-- A restart-free trace trivially satisfies `restartsFreshB`. -/
theorem restartsFreshB_of_no_restart (T : Int) {A : List DiscEvent}
    (hA : DiscEvent.restart ∉ A) : restartsFreshB T A = true := by
  have h := @restartsFreshB_append T A [] hA rfl
  simpa using h

/-- The first PADI wait of a `discoveryGo` run (if any) is attempt 1 with
the base timeout. -/
theorem discoveryGo_firstPadiWait (persist : Bool) (maxA : Nat) (T : Int)
    (fuel : Nat) (conn : PPPoEConnection) (env : List (List PPPoEPacket))
    (hmaxA : 1 ≤ maxA) :
    firstPadiWait (discoveryGo persist maxA T fuel conn env).2 = none
    ∨ firstPadiWait (discoveryGo persist maxA T fuel conn env).2 = some (1, T) := by
  cases fuel with
  | zero => exact Or.inl rfl
  | succ fuel =>
    right
    have h1 : firstPadiWait (padiLoop persist maxA T (fuel + 1) conn env 0 T).2
        = some (1, T) :=
      padiLoop_firstPadiWait persist maxA T (fuel + 1) conn env hmaxA (by omega)
    rw [discoveryGo]
    dsimp only
    split <;> (try split) <;> (try split) <;>
      simp [firstPadiWait_append, h1]

/-- In persistent mode the PADR/PADS loop never takes the plain-return
exit. -/
theorem padrLoop_persist_no_return (maxA : Nat) (T : Int) :
    ∀ (fuel : Nat) (conn : PPPoEConnection) (env : List (List PPPoEPacket))
      (attempts : Nat) (timeout : Int) (c : PPPoEConnection)
      (e : List (List PPPoEPacket)),
      (padrLoop true maxA T fuel conn env attempts timeout).1 ≠ .returned c e := by
  intro fuel
  induction fuel with
  | zero =>
    intro conn env attempts timeout c e
    simp [padrLoop]
  | succ fuel ih =>
    intro conn env attempts timeout c e
    rw [padrLoop]
    split
    · simp
    · cases hsend : sendPADR conn <;> dsimp only <;> split
      · exact ih _ _ _ _ c e
      · simp
      · exact ih _ _ _ _ c e
      · simp

/-- In persistent mode, a `discoveryGo` run never returns without a
session: whenever it finishes normally, the final state is `Session`. -/
theorem discoveryGo_persist_noFailReturn (maxA : Nat) (T : Int) :
    ∀ (fuel : Nat) (conn : PPPoEConnection) (env : List (List PPPoEPacket)),
      resultNoFailReturn (discoveryGo true maxA T fuel conn env).1 = true := by
  intro fuel
  induction fuel with
  | zero =>
    intro conn env
    simp [discoveryGo, resultNoFailReturn]
  | succ fuel ih =>
    intro conn env
    rw [discoveryGo]
    dsimp only
    split
    · simp [resultNoFailReturn]
    · simp [resultNoFailReturn]
    · split
      · split <;> simp [resultNoFailReturn]
      · split
        · simp [resultNoFailReturn, DState.session]
        · rename_i hret
          exact absurd hret (padrLoop_persist_no_return maxA T _ _ _ _ _ _ _)
        · exact ih _ _
        · simp [resultNoFailReturn]

/-- Every `restart` in a `discoveryGo` trace is followed by a PADI phase
restarted from scratch. -/
theorem discoveryGo_restartsFresh (persist : Bool) (maxA : Nat) (T : Int)
    (hmaxA : 1 ≤ maxA) :
    ∀ (fuel : Nat) (conn : PPPoEConnection) (env : List (List PPPoEPacket)),
      restartsFreshB T (discoveryGo persist maxA T fuel conn env).2 = true := by
  intro fuel
  induction fuel with
  | zero =>
    intro conn env
    rfl
  | succ fuel ih =>
    intro conn env
    rw [discoveryGo]
    dsimp only
    split
    · exact restartsFreshB_of_no_restart T (padiLoop_no_restart _ _ _ _ _ _ _ _)
    · exact restartsFreshB_of_no_restart T (padiLoop_no_restart _ _ _ _ _ _ _ _)
    · split
      · exact restartsFreshB_of_no_restart T (padiLoop_no_restart _ _ _ _ _ _ _ _)
      · split
        · refine restartsFreshB_of_no_restart T ?_
          intro hmem
          simp only [List.mem_append, List.mem_singleton] at hmem
          rcases hmem with (h1 | h1) | h1
          · exact padiLoop_no_restart _ _ _ _ _ _ _ _ h1
          · exact padrLoop_no_restart _ _ _ _ _ _ _ _ h1
          · exact absurd h1 (by simp)
        · refine restartsFreshB_of_no_restart T ?_
          intro hmem
          simp only [List.mem_append] at hmem
          rcases hmem with h1 | h1
          · exact padiLoop_no_restart _ _ _ _ _ _ _ _ h1
          · exact padrLoop_no_restart _ _ _ _ _ _ _ _ h1
        · rename_i c2 env3 hres
          have hfreshd := ih c2 env3
          have hfirst := discoveryGo_firstPadiWait persist maxA T fuel c2 env3 hmaxA
          have hcons : restartsFreshB T (DiscEvent.restart
              :: (discoveryGo persist maxA T fuel c2 env3).2) = true := by
            rcases hfirst with h1 | h1 <;>
              simp [restartsFreshB, h1, hfreshd]
          rw [List.append_assoc, List.append_assoc, List.singleton_append]
          refine restartsFreshB_append T (padiLoop_no_restart _ _ _ _ _ _ _ _) ?_
          exact restartsFreshB_append T (padrLoop_no_restart _ _ _ _ _ _ _ _) hcons
        · refine restartsFreshB_of_no_restart T ?_
          intro hmem
          simp only [List.mem_append] at hmem
          rcases hmem with h1 | h1
          · exact padiLoop_no_restart _ _ _ _ _ _ _ _ h1
          · exact padrLoop_no_restart _ _ _ _ _ _ _ _ h1

/-- Claim C5, amended.  In persistent mode PADR-phase exhaustion restarts
the PADI phase from scratch — the jump re-enters the PADI loop with the
attempt counter reset to 0 and the timeout reset to `discovery_timeout`,
so the first wait after every `restart` is attempt 1 with the base
timeout — and the engine never returns without a session (the only normal
returns are in state `Session`).  The discovery state, however, is not
reverted to `Initial` (see the counterexample): it stays `SentPADR` until
the next PADI transmission. -/
theorem C5_amended_persistent_restart_from_scratch (maxA : Nat) (T : Int)
    (fuel : Nat) (conn : PPPoEConnection) (env : List (List PPPoEPacket))
    (hmaxA : 1 ≤ maxA) :
    resultNoFailReturn (discoveryGo true maxA T fuel conn env).1 = true
    ∧ restartsFreshB T (discoveryGo true maxA T fuel conn env).2 = true :=
  ⟨discoveryGo_persist_noFailReturn maxA T fuel conn env,
   discoveryGo_restartsFresh true maxA T hmaxA fuel conn env⟩

/-- Witness for the amended C5: the concrete persistent run that accepts
one PADO, exhausts the PADR phase and restarts. -/
theorem C5_amended_persistent_restart_from_scratch_witness :
    resultNoFailReturn (discoveryGo true 3 5 6 connBase [[padoBasic]]).1 = true
    ∧ restartsFreshB 5 (discoveryGo true 3 5 6 connBase [[padoBasic]]).2 = true :=
  C5_amended_persistent_restart_from_scratch 3 5 6 connBase [[padoBasic]]
    (by decide)

/-- Claim C7: with initial timeout `T`, the successive per-attempt
timeouts within a phase are `T, 2T, 4T, …` for the PADI phase in
non-probe mode and for the PADR phase (wait `k` uses `T * 2 ^ (k − 1)`),
while in probe mode every PADI-phase wait uses `T`.  Both loops are
entered with counter 0 and timeout `T`, as `discovery` invokes them. -/
theorem C7_backoff_sequence (maxA : Nat) (T : Int) (fuel : Nat)
    (conn : PPPoEConnection) (env : List (List PPPoEPacket)) :
    (conn.printACNames = false →
      ∀ k t, DiscEvent.padiWait k t
          ∈ (padiLoop false maxA T fuel conn env 0 T).2 →
        1 ≤ k ∧ t = T * 2 ^ (k - 1))
    ∧ (conn.printACNames = true →
      ∀ (persist : Bool) k t,
        DiscEvent.padiWait k t ∈ (padiLoop persist maxA T fuel conn env 0 T).2 →
          t = T)
    ∧ (∀ (persist : Bool) k t,
        DiscEvent.padrWait k t ∈ (padrLoop persist maxA T fuel conn env 0 T).2 →
          1 ≤ k ∧ t = T * 2 ^ (k - 1)) := by
  refine ⟨?_, ?_, ?_⟩
  · intro hp k t hmem
    exact padiLoop_padiWait_nonpersist maxA T fuel conn env 0 T hp (by simp) k t hmem
  · intro hp persist k t hmem
    exact padiLoop_padiWait_probe persist maxA T fuel conn env 0 hp k t hmem
  · intro persist k t hmem
    exact padrLoop_padrWait persist maxA T fuel conn env 0 T (by simp) k t hmem

/-- Witness for C7: in the concrete no-response run with `T = 5`, PADI
attempt 2 waits `10 = 5·2¹`, the probe run waits `5` on attempt 2, and
PADR attempt 3 waits `20 = 5·2²`. -/
theorem C7_backoff_sequence_witness :
    (1 ≤ 2 ∧ (10 : Int) = 5 * 2 ^ (2 - 1))
    ∧ (5 : Int) = 5
    ∧ (1 ≤ 3 ∧ (20 : Int) = 5 * 2 ^ (3 - 1)) :=
  ⟨(C7_backoff_sequence 3 5 5 connBase []).1 (by decide) 2 10 (by decide),
   (C7_backoff_sequence 3 5 5 connProbe []).2.1 (by decide) false 2 5 (by decide),
   (C7_backoff_sequence 3 5 5 connBase []).2.2 false 3 20 (by decide)⟩

/-! ## Helper lemmas about frame encoding -/

theorem encodeTag_length (t : PPPoETag) :
    (encodeTag t).length = TAG_HDR_SIZE + t.payload.length := by
  simp [encodeTag, u16be, TAG_HDR_SIZE]
  omega

/-- The laid-out byte count of a frame whose Ethernet addresses are
well-formed. -/
theorem frameBytes_length (f : SentFrame)
    (hd : f.ethDest.length = 6) (hs : f.ethSource.length = 6) :
    (frameBytes f).length = HDR_SIZE + tagSum f.tags := by
  simp only [frameBytes, List.length_append, hd, hs, u16be, List.length_cons,
    List.length_nil, List.length_flatten, List.map_map, tagSum, HDR_SIZE]
  have hmap : (f.tags.map (List.length ∘ encodeTag)).sum
      = (f.tags.map fun t => TAG_HDR_SIZE + t.payload.length).sum := by
    congr 1
    apply List.map_congr_left
    intro t ht
    exact encodeTag_length t
  omega

/-- `appendTag` preserves the cursor/`plen`/size accounting invariant. -/
theorem appendTag_inv {st st2 : BuildState} {t : PPPoETag}
    (h : appendTag st t = some st2)
    (h1 : st.cursorOff = st.plen) (h2 : st.plen = tagSum st.tags) :
    st2.cursorOff = st2.plen ∧ st2.plen = tagSum st2.tags := by
  unfold appendTag at h
  split at h
  · exact absurd h (by simp)
  · rename_i hroom
    injection h with h3
    subst h3
    have hle : st.cursorOff + (t.payload.length + TAG_HDR_SIZE) ≤ MAX_PPPOE_PAYLOAD := by
      omega
    have hlt : st.plen + (t.payload.length + TAG_HDR_SIZE) < 2 ^ 16 := by
      rw [← h1]
      have : MAX_PPPOE_PAYLOAD < 2 ^ 16 := by norm_num [MAX_PPPOE_PAYLOAD]
      omega
    have hmod : (st.plen + (t.payload.length + TAG_HDR_SIZE)) % 2 ^ 16
        = st.plen + (t.payload.length + TAG_HDR_SIZE) := Nat.mod_eq_of_lt hlt
    have hsum : tagSum (st.tags ++ [t]) = tagSum st.tags + (TAG_HDR_SIZE + t.payload.length) := by
      simp [tagSum]
    refine ⟨?_, ?_⟩
    · show st.cursorOff + (t.payload.length + TAG_HDR_SIZE)
        = (st.plen + (t.payload.length + TAG_HDR_SIZE)) % 2 ^ 16
      rw [hmod, h1]
    · show (st.plen + (t.payload.length + TAG_HDR_SIZE)) % 2 ^ 16 = tagSum (st.tags ++ [t])
      rw [hmod, hsum, h2]
      omega

/-- The Service-Name build state of the encoders satisfies the accounting
invariant when the service-name length fits a `uint16_t` together with its
tag header. -/
theorem svcBuild_inv (conn : PPPoEConnection)
    (hsn : ∀ sn, conn.serviceName = some sn → sn.length + TAG_HDR_SIZE < 2 ^ 16) :
    (((match conn.serviceName with
        | some sn => sn.length
        | none => 0) % 2 ^ 16) + TAG_HDR_SIZE
      = (TAG_HDR_SIZE + ((match conn.serviceName with
        | some sn => sn.length
        | none => 0) % 2 ^ 16)) % 2 ^ 16)
    ∧ (TAG_HDR_SIZE + ((match conn.serviceName with
        | some sn => sn.length
        | none => 0) % 2 ^ 16)) % 2 ^ 16
      = tagSum [⟨TAG_SERVICE_NAME,
          (conn.serviceName.getD []).take ((match conn.serviceName with
            | some sn => sn.length
            | none => 0) % 2 ^ 16)⟩] := by
  cases hsv : conn.serviceName with
  | none => simp [tagSum, TAG_HDR_SIZE]
  | some sn =>
    have hlt : sn.length + TAG_HDR_SIZE < 2 ^ 16 := hsn sn hsv
    have hmod1 : sn.length % 2 ^ 16 = sn.length := Nat.mod_eq_of_lt (by omega)
    have hmod2 : (TAG_HDR_SIZE + sn.length) % 2 ^ 16 = TAG_HDR_SIZE + sn.length :=
      Nat.mod_eq_of_lt (by omega)
    simp only [hmod1, hmod2, Option.getD_some, List.take_length, tagSum,
      List.map_cons, List.map_nil, List.sum_cons, List.sum_nil]
    omega

/-- A successful `sendPADI` satisfies the size accounting: the `plen`
written into the length field is the total TLV byte count. -/
theorem sendPADI_inv {conn : PPPoEConnection} {f : SentFrame}
    (hsn : ∀ sn, conn.serviceName = some sn → sn.length + TAG_HDR_SIZE < 2 ^ 16)
    (h : sendPADI conn = some f) :
    f.plen = tagSum f.tags ∧ f.ethDest = broadcastMAC ∧ f.ethSource = conn.myEth := by
  unfold sendPADI at h
  dsimp only at h
  split at h
  · exact absurd h (by simp)
  · rename_i st1 hst0
    split at h
    · exact absurd h (by simp)
    · rename_i st2 hhu
      injection h with h1
      subst h1
      have hinv1 : st1.cursorOff = st1.plen ∧ st1.plen = tagSum st1.tags := by
        by_cases homit : (conn.serviceName == some noServiceNameSentinel) = true
        · simp only [homit, Bool.not_true, Bool.false_eq_true, if_false] at hst0
          injection hst0 with h2
          subst h2
          simp [tagSum]
        · have homit2 : (conn.serviceName == some noServiceNameSentinel) = false := by
            simpa using homit
          simp only [homit2, Bool.not_false, if_true] at hst0
          split at hst0
          · exact absurd hst0 (by simp)
          · injection hst0 with h2
            subst h2
            exact ⟨(svcBuild_inv conn hsn).1, (svcBuild_inv conn hsn).2⟩
      have hinv2 : st2.cursorOff = st2.plen ∧ st2.plen = tagSum st2.tags := by
        cases hhuq : conn.hostUniq with
        | none =>
          rw [hhuq] at hhu
          injection hhu with h2
          subst h2
          exact hinv1
        | some hu =>
          rw [hhuq] at hhu
          exact appendTag_inv hhu hinv1.1 hinv1.2
      exact ⟨hinv2.2, rfl, rfl⟩

/-- A successful `sendPADR` satisfies the size accounting. -/
theorem sendPADR_inv {conn : PPPoEConnection} {f : SentFrame}
    (hsn : ∀ sn, conn.serviceName = some sn → sn.length + TAG_HDR_SIZE < 2 ^ 16)
    (h : sendPADR conn = some f) :
    f.plen = tagSum f.tags ∧ f.ethDest = conn.peerEth ∧ f.ethSource = conn.myEth := by
  unfold sendPADR at h
  dsimp only at h
  split at h
  · exact absurd h (by simp)
  · rename_i hroom
    split at h
    · exact absurd h (by simp)
    · rename_i st2 hhu
      split at h
      · exact absurd h (by simp)
      · rename_i st3 hck
        split at h
        · exact absurd h (by simp)
        · rename_i st4 hrl
          injection h with h1
          subst h1
          have hinv1 := svcBuild_inv conn hsn
          have hinv2 : st2.cursorOff = st2.plen ∧ st2.plen = tagSum st2.tags := by
            cases hhuq : conn.hostUniq with
            | none =>
              rw [hhuq] at hhu
              injection hhu with h2
              subst h2
              exact ⟨hinv1.1, hinv1.2⟩
            | some hu =>
              rw [hhuq] at hhu
              exact appendTag_inv hhu hinv1.1 hinv1.2
          have hinv3 : st3.cursorOff = st3.plen ∧ st3.plen = tagSum st3.tags := by
            cases hckq : conn.cookie with
            | none =>
              rw [hckq] at hck
              injection hck with h2
              subst h2
              exact hinv2
            | some ck =>
              rw [hckq] at hck
              exact appendTag_inv hck hinv2.1 hinv2.2
          have hinv4 : st4.cursorOff = st4.plen ∧ st4.plen = tagSum st4.tags := by
            cases hrlq : conn.relayId with
            | none =>
              rw [hrlq] at hrl
              injection hrl with h2
              subst h2
              exact hinv3
            | some r =>
              rw [hrlq] at hrl
              exact appendTag_inv hrl hinv3.1 hinv3.2
          exact ⟨hinv4.2, rfl, rfl⟩

/-- Claim C8: every frame the engine encodes (PADI and PADR, under any
configuration of service name, sentinel, Host-Uniq, cookie and relay id
whose service name fits a `uint16_t` length field) has total length
`14 + 6 + Σ (4 + tag.length)` and carries exactly `Σ (4 + tag.length)` in
the PPPoE payload-length field. -/
theorem C8_frame_length_accounting (conn : PPPoEConnection) (fi fr : SentFrame)
    (hmy : conn.myEth.length = 6) (hpeer : conn.peerEth.length = 6)
    (hsn : ∀ sn, conn.serviceName = some sn → sn.length + TAG_HDR_SIZE < 2 ^ 16) :
    (sendPADI conn = some fi →
      fi.plen = tagSum fi.tags
      ∧ (sentFrameBytes fi).length = 14 + 6 + tagSum fi.tags)
    ∧ (sendPADR conn = some fr →
      fr.plen = tagSum fr.tags
      ∧ (sentFrameBytes fr).length = 14 + 6 + tagSum fr.tags) := by
  constructor
  · intro h
    obtain ⟨hplen, hd, hs⟩ := sendPADI_inv hsn h
    have hdl : fi.ethDest.length = 6 := by rw [hd]; rfl
    have hsl : fi.ethSource.length = 6 := by rw [hs, hmy]
    have hfb := frameBytes_length fi hdl hsl
    refine ⟨hplen, ?_⟩
    simp only [sentFrameBytes, List.length_take, hfb, hplen, HDR_SIZE]
    omega
  · intro h
    obtain ⟨hplen, hd, hs⟩ := sendPADR_inv hsn h
    have hdl : fr.ethDest.length = 6 := by rw [hd, hpeer]
    have hsl : fr.ethSource.length = 6 := by rw [hs, hmy]
    have hfb := frameBytes_length fr hdl hsl
    refine ⟨hplen, ?_⟩
    simp only [sentFrameBytes, List.length_take, hfb, hplen, HDR_SIZE]
    omega

/-- Witness for C8: the fully loaded configuration `connRich` encodes a
PADI of 12 TLV bytes and a PADR of 23 TLV bytes, both with matching
length fields and total frame sizes. -/
theorem C8_frame_length_accounting_witness :
    (padiRich.plen = tagSum padiRich.tags
      ∧ (sentFrameBytes padiRich).length = 14 + 6 + tagSum padiRich.tags)
    ∧ (padrRich.plen = tagSum padrRich.tags
      ∧ (sentFrameBytes padrRich).length = 14 + 6 + tagSum padrRich.tags) := by
  have h := C8_frame_length_accounting connRich padiRich padrRich (by decide)
    (by decide)
    (by
      intro sn hsv
      injection hsv with h2
      subst h2
      decide)
  exact ⟨h.1 (by decide), h.2 (by decide)⟩

/-- Claim C2, amended.  The claim's "if" direction holds: when the
accepted PADO (the packet whose source MAC became `peer_mac`) contains an
AC-Cookie and a Relay-Session-Id, the stored captures equal the accepted
PADO's (last) values and every successfully encoded PADR carries both tags
verbatim (original type, length and value).  The "only if" direction of
the claim is false (see the counterexample): captures from earlier,
non-accepted PADOs are also echoed. -/
theorem C2_amended_accepted_pado_tags_echoed (ps : Bool)
    (conn c : PPPoEConnection) (pkts : List PPPoEPacket) (p : PPPoEPacket)
    (n : Nat) (dc dr : List Nat) (f : SentFrame)
    (hacc : waitForPADO ps conn pkts 0 = .accepted c p n) :
    (lastTagPayload TAG_AC_COOKIE p.tags = some dc →
      c.cookie = some ⟨TAG_AC_COOKIE, dc⟩
      ∧ (sendPADR c = some f → (⟨TAG_AC_COOKIE, dc⟩ : PPPoETag) ∈ f.tags))
    ∧ (lastTagPayload TAG_RELAY_SESSION_ID p.tags = some dr →
      c.relayId = some ⟨TAG_RELAY_SESSION_ID, dr⟩
      ∧ (sendPADR c = some f → (⟨TAG_RELAY_SESSION_ID, dr⟩ : PPPoETag) ∈ f.tags)) := by
  obtain ⟨cmid, k, hstep⟩ := waitForPADO_accepted_inv hacc
  obtain ⟨-, -, hc, hr, -⟩ := waitForPADOStep_brk_inv hstep
  constructor
  · intro hck
    simp only [hck] at hc
    exact ⟨hc, fun hf => (sendPADR_contains_captures hf).1 _ hc⟩
  · intro hrl
    simp only [hrl] at hr
    exact ⟨hr, fun hf => (sendPADR_contains_captures hf).2 _ hr⟩

/-- Witness for the amended C2: a PADO with cookie `[7]` and relay id
`[8]` is accepted and the PADR `sendPADR` builds carries both tags (each
obtained from its own independent conjunct of the theorem). -/
theorem C2_amended_accepted_pado_tags_echoed_witness :
    (connCkRelAccepted.cookie = some ⟨TAG_AC_COOKIE, [7]⟩
      ∧ (⟨TAG_AC_COOKIE, [7]⟩ : PPPoETag) ∈ padrCkRel.tags)
    ∧ (connCkRelAccepted.relayId = some ⟨TAG_RELAY_SESSION_ID, [8]⟩
      ∧ (⟨TAG_RELAY_SESSION_ID, [8]⟩ : PPPoETag) ∈ padrCkRel.tags) := by
  have h := C2_amended_accepted_pado_tags_echoed false connBase connCkRelAccepted
    [padoCkRel] padoCkRel 0 [7] [8] padrCkRel (by decide)
  have h1 := h.1 (by decide)
  have h2 := h.2 (by decide)
  exact ⟨⟨h1.1, h1.2 (by decide)⟩, ⟨h2.1, h2.2 (by decide)⟩⟩

/-- Claim C1.  The claim states that in non-probe, non-persistent mode,
once the PADI attempt counter exceeds `max_attempts` without an acceptable
PADO, discovery returns without a session and never sends a PADR.  The
code violates this: with no responses at all, the non-persistent `break`
out of the PADI loop falls through into the PADR loop, which transmits
three PADR frames (addressed to the never-initialised zero peer MAC)
before returning without a session in state `SentPADR`. -/
theorem C1_padr_sent_despite_pado_timeout :
    ((discovery false 10 connBase []).2.filter isSentPADREvt).length = 3
    ∧ ((discovery false 10 connBase []).2.filter isSentPADIEvt).length = 3
    ∧ (discovery false 10 connBase []).1
        = .finished { connBase with discoveryState := .sentPADR }
    ∧ resultNoFailReturn (discovery false 10 connBase []).1 = false := by
  decide

/-- Claim C6.  The claim states that a non-positive interval
`deadline − now` makes the receiver report Timeout immediately.  The code
violates this: with `expire_at = (100 s, 500000 µs)` and
`now = (101 s, 0 µs)` the deadline lies strictly in the past (by half a
second), yet `time_left` returns 1 with `tv = {−1 s, 500000 µs}`, so the
receive loop goes on to call `select` with a negative interval instead of
returning Timeout — contradicting the function's own comment "returns 0
if now >= *expire_at". -/
theorem C6_time_left_accepts_expired_deadline :
    ((100 : Int) * 1000000 + 500000 < 101 * 1000000 + 0)
    ∧ time_left ⟨100, 500000⟩ ⟨101, 0⟩ = some ⟨-1, 500000⟩ := by
  decide

/-- Counterexample to claim C2 as stated: the engine's PADR can carry an
AC-Cookie that the accepted PADO did not contain.  A first PADO
("silver", rejected by the "gold" AC-Name filter) carries cookie `de ad`;
the second PADO ("gold", no cookie) is accepted and its source becomes
`peer_mac`; the PADR then still echoes the rejected PADO's cookie, so the
"only if" direction of the claim fails. -/
theorem C2_cx_padr_echoes_cookie_of_rejected_pado :
    (match waitForPADO false connGold [padoSilver, padoGold] 0 with
      | .accepted c p _ =>
        p == padoGold
          && p.tags.all (fun t => !(t.tagType == TAG_AC_COOKIE))
          && (match sendPADR c with
              | some f =>
                f.tags.any fun t =>
                  t.tagType == TAG_AC_COOKIE && t.payload == [0xde, 0xad]
              | none => false)
      | _ => false) = true := by
  decide

/-- Counterexample to claim C4 as stated: a received PADS frame carrying a
Generic-Error tag does not terminate the process in normal non-persistent
mode.  `parsePADSTags` only sets `PADSHadError` (it has no exit path, and
takes no notice of `persist`); the frame is dropped and the receive loop
runs on to its timeout. -/
theorem C4_cx_pads_error_does_not_exit :
    connPeer.printACNames = false
    ∧ waitForPADS connPeer [padsErr]
        = .timeout { connPeer with PADSHadError := true } := by
  decide

/-- Counterexample to claim C5 as stated: in a persistent run whose PADR
phase exhausts its attempts, the engine does restart the PADI phase (the
trace contains the `goto SEND_PADI` jump right after the PADS timeout
diagnostic), but `conn->discoveryState` is never set to `Initial`
(`STATE_DISCOVERY`) anywhere in the run — the state stays `SentPADR`
until the next PADI transmission overwrites it with `SentPADI`. -/
theorem C5_cx_restart_without_initial_state :
    ((discovery true 6 connBase [[padoBasic]]).2.contains DiscEvent.padrTimeoutMsg
        = true)
    ∧ ((discovery true 6 connBase [[padoBasic]]).2.contains DiscEvent.restart = true)
    ∧ ((discovery true 6 connBase [[padoBasic]]).2.contains
        (DiscEvent.stateSet DState.initial) = false) := by
  decide

end Pppoe
